import Mathlib

/-!
Verification of the `reg_comments` repository (two Python script variants:
`extract-comments.py`, the checkpointed scraper, and
`regulations_fda_scraping.py`, the non-checkpointed scraper) against its
natural-language specification.  The relevant Python functions are shallowly
embedded as executable Lean definitions; HTTP traffic, the file system and
the clock are modelled by explicit oracle inputs (lists of simulated
outcomes), so the control flow of each embedded function mirrors the Python
source line by line.
-/

namespace RegComments

/-! ## Resilient request executor (`get_requests_response`, both variants)

The executor's interaction with the network is modelled by a finite list of
per-call outcomes: each iteration of the Python `while` loop performs exactly
one HTTP call, which either raises an exception (`requests` timeout or any
other exception — both handlers behave identically) or produces a response
with a status code.  The response object is modelled by its status code,
which is all the executor inspects. -/

/-- One simulated outcome of a single HTTP call: the call either raised an
exception or returned a response with the given status code. -/
inductive Outcome where
  | raised : Outcome
  | status : Nat → Outcome
deriving Repr, DecidableEq

/-- Result of running the retry loop of `get_requests_response` on a finite
list of simulated call outcomes.  `resp` is the status code of the response
object held in the Python variable `resp` when the function returns (`none`
models Python `None`); `calls` counts HTTP calls made; `waits` counts
rate-limit sleeps; `flushes` counts checkpoint flushes (`save_processed_ids`
calls, only present in the checkpointed variant); `finalTry` is the value of
`num_of_try` at return; `exhausted` is true when the simulated outcome list
ran out while the loop would have made a further call. -/
structure ExecResult where
  resp : Option Nat
  calls : Nat
  waits : Nat
  flushes : Nat
  finalTry : Nat
  exhausted : Bool
deriving Repr, DecidableEq

/-- Bump the call counter: one more HTTP call was made before reaching the
rest of the run. -/
def bumpCall (r : ExecResult) : ExecResult :=
  { r with calls := r.calls + 1 }

/-- Account for one rate-limited call: the call was made, a backoff sleep was
performed, and (in the checkpointed variant) the checkpoint was flushed. -/
def bumpRateLimit (flushRL : Bool) (r : ExecResult) : ExecResult :=
  { r with calls := r.calls + 1, waits := r.waits + 1,
           flushes := r.flushes + (if flushRL then 1 else 0) }

/-- The `while True` loop of `get_requests_response` (lines 146-211 of
`extract-comments.py`, lines 144-207 of `regulations_fda_scraping.py`).
Arguments `succ` and `rl` are `successful_http_status_codes` and
`rate_limit_status_codes`; `flushRL` is true for the checkpointed variant,
which calls `save_processed_ids()` before a rate-limit sleep; `numTries` is
`num_of_tries`.  The remaining arguments are the loop state: the simulated
outcomes of the calls still to be made, the current `resp`, and
`num_of_try`. -/
def runRequestLoop (succ rl : List Nat) (flushRL : Bool) (numTries : Nat) :
    List Outcome → Option Nat → Nat → ExecResult
  | outs, resp, numTry =>
    if numTries < numTry then
      { resp := resp, calls := 0, waits := 0, flushes := 0,
        finalTry := numTry, exhausted := false }
    else
      match outs with
      | [] =>
        { resp := resp, calls := 0, waits := 0, flushes := 0,
          finalTry := numTry, exhausted := true }
      | Outcome.raised :: rest =>
        bumpCall (runRequestLoop succ rl flushRL numTries rest resp (numTry + 1))
      | Outcome.status c :: rest =>
        if c ∈ succ then
          { resp := some c, calls := 1, waits := 0, flushes := 0,
            finalTry := numTry, exhausted := false }
        else if c ∈ rl then
          bumpRateLimit flushRL
            (runRequestLoop succ rl flushRL numTries rest (some c) numTry)
        else
          bumpCall (runRequestLoop succ rl flushRL numTries rest (some c) (numTry + 1))

/-- Default `successful_http_status_codes` of both variants. -/
def successful_http_status_codes : List Nat := [200, 201, 202]

/-- Default `rate_limit_status_codes` of both variants. -/
def rate_limit_status_codes : List Nat := [429]

/-- `get_requests_response`: raises `ValueError` when `num_of_tries < 1`,
otherwise runs the retry loop starting from `resp = None`, `num_of_try = 1`.
`flushRL` selects the checkpointed variant (which flushes the checkpoint
before every rate-limit sleep). -/
def get_requests_response (flushRL : Bool) (numTries : Nat) (outs : List Outcome) :
    Except String ExecResult :=
  if numTries < 1 then
    Except.error "num_of_tries must be 1 or more"
  else
    Except.ok (runRequestLoop successful_http_status_codes rate_limit_status_codes
      flushRL numTries outs none 1)

/-! ### Step equations for the retry loop -/

theorem runRequestLoop_break (succ rl : List Nat) (flushRL : Bool) (numTries : Nat)
    (outs : List Outcome) (resp : Option Nat) (numTry : Nat) (h : numTries < numTry) :
    runRequestLoop succ rl flushRL numTries outs resp numTry =
      { resp := resp, calls := 0, waits := 0, flushes := 0,
        finalTry := numTry, exhausted := false } := by
  rw [runRequestLoop.eq_def]
  simp [h]

theorem runRequestLoop_success (succ rl : List Nat) (flushRL : Bool) (numTries : Nat)
    (rest : List Outcome) (c : Nat) (resp : Option Nat) (numTry : Nat)
    (h : numTry ≤ numTries) (hc : c ∈ succ) :
    runRequestLoop succ rl flushRL numTries (Outcome.status c :: rest) resp numTry =
      { resp := some c, calls := 1, waits := 0, flushes := 0,
        finalTry := numTry, exhausted := false } := by
  rw [runRequestLoop.eq_def]
  simp [Nat.not_lt.mpr h, hc]

theorem runRequestLoop_raised (succ rl : List Nat) (flushRL : Bool) (numTries : Nat)
    (rest : List Outcome) (resp : Option Nat) (numTry : Nat) (h : numTry ≤ numTries) :
    runRequestLoop succ rl flushRL numTries (Outcome.raised :: rest) resp numTry =
      bumpCall (runRequestLoop succ rl flushRL numTries rest resp (numTry + 1)) := by
  rw [runRequestLoop.eq_def]
  simp [Nat.not_lt.mpr h]

theorem runRequestLoop_rateLimit (succ rl : List Nat) (flushRL : Bool) (numTries : Nat)
    (rest : List Outcome) (c : Nat) (resp : Option Nat) (numTry : Nat)
    (h : numTry ≤ numTries) (hc : c ∉ succ) (hrl : c ∈ rl) :
    runRequestLoop succ rl flushRL numTries (Outcome.status c :: rest) resp numTry =
      bumpRateLimit flushRL
        (runRequestLoop succ rl flushRL numTries rest (some c) numTry) := by
  rw [runRequestLoop.eq_def]
  simp [Nat.not_lt.mpr h, hc, hrl]

theorem runRequestLoop_badStatus (succ rl : List Nat) (flushRL : Bool) (numTries : Nat)
    (rest : List Outcome) (c : Nat) (resp : Option Nat) (numTry : Nat)
    (h : numTry ≤ numTries) (hc : c ∉ succ) (hrl : c ∉ rl) :
    runRequestLoop succ rl flushRL numTries (Outcome.status c :: rest) resp numTry =
      bumpCall (runRequestLoop succ rl flushRL numTries rest (some c) (numTry + 1)) := by
  rw [runRequestLoop.eq_def]
  simp [Nat.not_lt.mpr h, hc, hrl]

/-- When every call raises, the response variable is never assigned: after the
attempt budget is exhausted the loop returns `resp` unchanged. -/
theorem runRequestLoop_allRaised (succ rl : List Nat) (flushRL : Bool) (numTries : Nat) :
    ∀ (k : Nat) (rest : List Outcome) (resp : Option Nat) (numTry : Nat),
      numTries < numTry + k →
      (runRequestLoop succ rl flushRL numTries
        (List.replicate k Outcome.raised ++ rest) resp numTry).resp = resp := by
  intro k
  induction k with
  | zero =>
    intro rest resp numTry h
    simp only [List.replicate, List.nil_append]
    rw [runRequestLoop_break succ rl flushRL numTries rest resp numTry (by omega)]
  | succ n ih =>
    intro rest resp numTry h
    by_cases hb : numTries < numTry
    · rw [runRequestLoop_break succ rl flushRL numTries _ resp numTry hb]
    · simp only [List.replicate, List.cons_append]
      rw [runRequestLoop_raised succ rl flushRL numTries _ resp numTry (by omega)]
      simp only [bumpCall]
      exact ih rest resp (numTry + 1) (by omega)

/-- C1: a rate-limit status code never consumes a retry attempt: the executor
flushes the checkpoint (in the checkpointed variant), sleeps, and retries with
`num_of_try` unchanged, until a non-rate-limit outcome occurs; and on the
simulated response sequence `[429, 429, 200]` the checkpointed executor makes
exactly three calls of which the last one succeeds (result status 200), after
two backoff waits and two checkpoint flushes, with the attempt counter still
at its initial value 1. -/
theorem claim_C1 :
    (∀ (succ rl : List Nat) (flushRL : Bool) (numTries : Nat) (rest : List Outcome)
        (c : Nat) (resp : Option Nat) (numTry : Nat),
        numTry ≤ numTries → c ∉ succ → c ∈ rl →
        runRequestLoop succ rl flushRL numTries (Outcome.status c :: rest) resp numTry =
          bumpRateLimit flushRL
            (runRequestLoop succ rl flushRL numTries rest (some c) numTry)) ∧
    get_requests_response true 3 [Outcome.status 429, Outcome.status 429, Outcome.status 200] =
      Except.ok { resp := some 200, calls := 3, waits := 2, flushes := 2,
                  finalTry := 1, exhausted := false } := by
  constructor
  · intro succ rl flushRL numTries rest c resp numTry h hc hrl
    exact runRequestLoop_rateLimit succ rl flushRL numTries rest c resp numTry h hc hrl
  · rfl

/-- Witness for C1: the general rate-limit step equation instantiated at a
concrete input. -/
theorem claim_C1_witness :
    runRequestLoop [200, 201, 202] [429] true 3
        [Outcome.status 429, Outcome.status 200] none 1 =
      bumpRateLimit true
        (runRequestLoop [200, 201, 202] [429] true 3 [Outcome.status 200] (some 429) 1) :=
  claim_C1.1 [200, 201, 202] [429] true 3 [Outcome.status 200] 429 none 1
    (by decide) (by decide) (by decide)

/-- C3: the executor consumes exactly one attempt per network-level failure
(raised exception) or non-success/non-rate-limit status code; a successful
status code returns immediately with that response and no further calls; once
the budget is exhausted it returns whatever response was last obtained; and
when every attempt raised, the result is `None`. -/
theorem claim_C3 :
    (∀ (succ rl : List Nat) (flushRL : Bool) (numTries : Nat) (rest : List Outcome)
        (c : Nat) (resp : Option Nat) (numTry : Nat),
        numTry ≤ numTries → c ∈ succ →
        runRequestLoop succ rl flushRL numTries (Outcome.status c :: rest) resp numTry =
          { resp := some c, calls := 1, waits := 0, flushes := 0,
            finalTry := numTry, exhausted := false }) ∧
    (∀ (succ rl : List Nat) (flushRL : Bool) (numTries : Nat) (rest : List Outcome)
        (resp : Option Nat) (numTry : Nat),
        numTry ≤ numTries →
        runRequestLoop succ rl flushRL numTries (Outcome.raised :: rest) resp numTry =
          bumpCall (runRequestLoop succ rl flushRL numTries rest resp (numTry + 1))) ∧
    (∀ (succ rl : List Nat) (flushRL : Bool) (numTries : Nat) (rest : List Outcome)
        (c : Nat) (resp : Option Nat) (numTry : Nat),
        numTry ≤ numTries → c ∉ succ → c ∉ rl →
        runRequestLoop succ rl flushRL numTries (Outcome.status c :: rest) resp numTry =
          bumpCall (runRequestLoop succ rl flushRL numTries rest (some c) (numTry + 1))) ∧
    (∀ (succ rl : List Nat) (flushRL : Bool) (numTries : Nat) (outs : List Outcome)
        (resp : Option Nat) (numTry : Nat),
        numTries < numTry →
        runRequestLoop succ rl flushRL numTries outs resp numTry =
          { resp := resp, calls := 0, waits := 0, flushes := 0,
            finalTry := numTry, exhausted := false }) ∧
    (∀ (flushRL : Bool) (numTries : Nat) (k : Nat) (rest : List Outcome),
        1 ≤ numTries → numTries ≤ k →
        ∃ r, get_requests_response flushRL numTries
              (List.replicate k Outcome.raised ++ rest) = Except.ok r ∧ r.resp = none) := by
  refine ⟨runRequestLoop_success, runRequestLoop_raised, runRequestLoop_badStatus,
    runRequestLoop_break, ?_⟩
  intro flushRL numTries k rest h1 hk
  have hrun : get_requests_response flushRL numTries
      (List.replicate k Outcome.raised ++ rest) =
      Except.ok (runRequestLoop successful_http_status_codes rate_limit_status_codes
        flushRL numTries (List.replicate k Outcome.raised ++ rest) none 1) := by
    rw [get_requests_response, if_neg (by omega)]
  exact ⟨_, hrun,
    runRequestLoop_allRaised _ _ flushRL numTries k rest none 1 (by omega)⟩

/-- Witness for C3: the immediate-success equation and the all-raised result
instantiated at concrete inputs. -/
theorem claim_C3_witness :
    runRequestLoop [200, 201, 202] [429] false 3 [Outcome.status 200] none 1 =
      { resp := some 200, calls := 1, waits := 0, flushes := 0,
        finalTry := 1, exhausted := false } ∧
    ∃ r, get_requests_response false 2
          (List.replicate 2 Outcome.raised ++ []) = Except.ok r ∧ r.resp = none :=
  ⟨claim_C3.1 [200, 201, 202] [429] false 3 [] 200 none 1 (by decide) (by decide),
   claim_C3.2.2.2.2 false 2 2 [] (by decide) (by decide)⟩

/-! ## JSON values and Python operational details

`get_comment_detail_data` and `get_comment_ids` inspect decoded JSON bodies
with Python subscripting (`obj[key]`), `dict.get`, truthiness (`x or ""`),
`str()` and `str.partition`.  These are modelled exactly, including the
exceptions they raise: subscripting a non-dict raises `TypeError`,
subscripting a dict with a missing key raises `KeyError`, and calling `.get`
or `.json()` on a non-dict/`None` raises `AttributeError` — only
`json.JSONDecodeError` and `KeyError` are caught by the scripts' `except`
clauses.  Parsed JSON objects are modelled as association lists without
duplicate keys (Python's `json` parser keeps one value per key). -/

/-- A decoded JSON value. -/
inductive Json where
  | jnull : Json
  | jbool : Bool → Json
  | jnum : Int → Json
  | jstr : String → Json
  | jarr : List Json → Json
  | jobj : List (String × Json) → Json

/-- Structural equality of JSON values, modelling Python `==` on decoded
JSON data (used by the `in` checks of the discovery loops). -/
def Json.beq : Json → Json → Bool
  | Json.jnull, Json.jnull => true
  | Json.jbool a, Json.jbool b => a == b
  | Json.jnum a, Json.jnum b => a == b
  | Json.jstr a, Json.jstr b => a == b
  | Json.jarr [], Json.jarr [] => true
  | Json.jarr (x :: xs), Json.jarr (y :: ys) =>
      Json.beq x y && Json.beq (Json.jarr xs) (Json.jarr ys)
  | Json.jobj [], Json.jobj [] => true
  | Json.jobj ((k1, v1) :: fs), Json.jobj ((k2, v2) :: gs) =>
      k1 == k2 && Json.beq v1 v2 && Json.beq (Json.jobj fs) (Json.jobj gs)
  | _, _ => false

instance : BEq Json := ⟨Json.beq⟩

/-- The Python exceptions that can arise while the scripts process a decoded
response body. -/
inductive PyExc where
  | jsonDecodeError : PyExc
  | keyError : PyExc
  | typeError : PyExc
  | attributeError : PyExc
deriving Repr, DecidableEq

/-- Python subscripting `j[k]` on a decoded JSON value: a present key of an
object yields its value, a missing key raises `KeyError`, and subscripting
any non-object with a string key raises `TypeError`. -/
def getItem (j : Json) (k : String) : Except PyExc Json :=
  match j with
  | Json.jobj fields =>
    match fields.lookup k with
    | some v => Except.ok v
    | none => Except.error PyExc.keyError
  | _ => Except.error PyExc.typeError

/-- Python `j.get(k, dflt)`: defined on dicts only; on any other value the
attribute access `.get` raises `AttributeError`. -/
def pyGet (j : Json) (k : String) (dflt : Json) : Except PyExc Json :=
  match j with
  | Json.jobj fields => Except.ok ((fields.lookup k).getD dflt)
  | _ => Except.error PyExc.attributeError

/-- Python truthiness of a decoded JSON value. -/
def pyTruthy : Json → Bool
  | Json.jnull => false
  | Json.jbool b => b
  | Json.jnum n => n != 0
  | Json.jstr s => s != ""
  | Json.jarr l => !l.isEmpty
  | Json.jobj l => !l.isEmpty

/-- The Python idiom `x or ""`: keep `x` when truthy, else the empty
string. -/
def pyOrEmpty (j : Json) : Json :=
  if pyTruthy j then j else Json.jstr ""

mutual

/-- Python `repr()` of a decoded JSON value (string escaping inside `repr` of
nested strings is not reproduced; no theorem below depends on it). -/
def pyReprJson : Json → String
  | Json.jnull => "None"
  | Json.jbool true => "True"
  | Json.jbool false => "False"
  | Json.jnum n => toString n
  | Json.jstr s => "'" ++ s ++ "'"
  | Json.jarr l => "[" ++ String.intercalate ", " (pyReprList l) ++ "]"
  | Json.jobj l => "\x7b" ++ String.intercalate ", " (pyReprFields l) ++ "\x7d"

/-- `repr()` of the elements of a Python list. -/
def pyReprList : List Json → List String
  | [] => []
  | x :: xs => pyReprJson x :: pyReprList xs

/-- `repr()` of the key/value pairs of a Python dict. -/
def pyReprFields : List (String × Json) → List String
  | [] => []
  | (k, v) :: fs => ("'" ++ k ++ "': " ++ pyReprJson v) :: pyReprFields fs

end

/-- Python `str()` of a decoded JSON value: identity on strings, `repr`-like
otherwise (`str(None) = "None"`, `str(True) = "True"`, ...). -/
def pyStr : Json → String
  | Json.jstr s => s
  | j => pyReprJson j

/-- `s.partition(sep)[0]` for a one-character separator: the part of `s`
before the first occurrence of `sep` (all of `s` when `sep` is absent). -/
def pyPartitionBefore (sep : Char) (s : String) : String :=
  String.mk (s.data.takeWhile (fun c => c != sep))

/-- A `requests` response as the scripts observe it: a status code and a
body that either decodes to a JSON value or is undecodable (`none`, making
`.json()` raise `JSONDecodeError`). -/
structure Resp where
  status_code : Nat
  body : Option Json

/-- `response.json()`. -/
def respJson (r : Resp) : Except PyExc Json :=
  match r.body with
  | some j => Except.ok j
  | none => Except.error PyExc.jsonDecodeError

/-- Python truthiness of a `requests` response object: `bool(response)` is
`response.ok`, i.e. `status_code < 400`. -/
def respTruthy (r : Resp) : Bool :=
  r.status_code < 400

/-- `API_COMMENTS_URL` of both scripts. -/
def API_COMMENTS_URL : String := "https://api.regulations.gov/v4/comments"

/-! ## Detail fetch and normalize (`get_comment_detail_data`, both variants) -/

/-- The normalized flat record built by the final `dict(...)` of
`get_comment_detail_data`.  Field values are decoded JSON values because the
two boolean-ish fields (`open_for_comment`, `withdrawn`) are stored without
the `or ""` coalescing and can therefore hold `None`/booleans; the other
fields are strings by construction. -/
structure CommentRecord where
  comment_id : Json
  tracking_number : Json
  country : Json
  state_or_province : Json
  zip_code : Json
  document_category : Json
  document_subtype : Json
  received_date : Json
  url : Json
  title : Json
  object_id : Json
  agency_id : Json
  docket_id : Json
  open_for_comment : Json
  comment_on_document_id : Json
  withdrawn : Json
  restrict_reason : Json
  restrict_reason_type : Json
  comment : Json

/-- The field extraction of the `try` block of `get_comment_detail_data`
once `comment_attributes` is in hand (lines 328-372 of
`extract-comments.py`, lines 295-339 of `regulations_fda_scraping.py`):
sixteen `comment_attributes.get(key, "")` reads, the `or ""` coalescing on
the fourteen textual fields, the `str(...).partition("T")[0]` treatment of
`receiveDate`, and the final `dict(...)`. -/
def normalizeAttributes (comment_id : String) (comment_attributes : Json) :
    Except PyExc CommentRecord := do
  let tracking_number := pyOrEmpty (← pyGet comment_attributes "trackingNbr" (Json.jstr ""))
  let country := pyOrEmpty (← pyGet comment_attributes "country" (Json.jstr ""))
  let state_or_province := pyOrEmpty (← pyGet comment_attributes "stateProvinceRegion" (Json.jstr ""))
  let zip_code := pyOrEmpty (← pyGet comment_attributes "zip" (Json.jstr ""))
  let document_category := pyOrEmpty (← pyGet comment_attributes "category" (Json.jstr ""))
  let document_subtype := pyOrEmpty (← pyGet comment_attributes "subtype" (Json.jstr ""))
  let received_date := pyPartitionBefore 'T' (pyStr (← pyGet comment_attributes "receiveDate" (Json.jstr "")))
  let title := pyOrEmpty (← pyGet comment_attributes "title" (Json.jstr ""))
  let object_id := pyOrEmpty (← pyGet comment_attributes "objectId" (Json.jstr ""))
  let agency_id := pyOrEmpty (← pyGet comment_attributes "agencyId" (Json.jstr ""))
  let docket_id := pyOrEmpty (← pyGet comment_attributes "docketId" (Json.jstr ""))
  let open_for_comment ← pyGet comment_attributes "openForComment" (Json.jstr "")
  let comment_on_document_id := pyOrEmpty (← pyGet comment_attributes "commentOnDocumentId" (Json.jstr ""))
  let withdrawn ← pyGet comment_attributes "withdrawn" (Json.jstr "")
  let restrict_reason := pyOrEmpty (← pyGet comment_attributes "restrictReason" (Json.jstr ""))
  let restrict_reason_type := pyOrEmpty (← pyGet comment_attributes "restrictReasonType" (Json.jstr ""))
  let comment := pyOrEmpty (← pyGet comment_attributes "comment" (Json.jstr ""))
  return { comment_id := Json.jstr comment_id
           tracking_number := tracking_number
           country := country
           state_or_province := state_or_province
           zip_code := zip_code
           document_category := document_category
           document_subtype := document_subtype
           received_date := Json.jstr received_date
           url := Json.jstr (API_COMMENTS_URL ++ "/" ++ comment_id)
           title := title
           object_id := object_id
           agency_id := agency_id
           docket_id := docket_id
           open_for_comment := open_for_comment
           comment_on_document_id := comment_on_document_id
           withdrawn := withdrawn
           restrict_reason := restrict_reason
           restrict_reason_type := restrict_reason_type
           comment := comment }

/-- The whole `try` block of `get_comment_detail_data`:
`response.json()["data"]`, then `["attributes"]`, then the field
extraction. -/
def parseDetailBody (comment_id : String) (r : Resp) : Except PyExc CommentRecord :=
  match respJson r with
  | Except.error e => Except.error e
  | Except.ok content =>
    match getItem content "data" with
    | Except.error e => Except.error e
    | Except.ok comment_response_content =>
      match getItem comment_response_content "attributes" with
      | Except.error e => Except.error e
      | Except.ok comment_attributes =>
        normalizeAttributes comment_id comment_attributes

/-- The exceptions caught by the `except (json.JSONDecodeError, KeyError)`
clauses of both scripts (the same clause guards the listing-page parse in
`get_comment_ids` and the detail parse in `get_comment_detail_data`). -/
def caughtByExceptClause (e : PyExc) : Bool :=
  e == PyExc.jsonDecodeError || e == PyExc.keyError

/-- `get_comment_detail_data` of the checkpointed variant
(`extract-comments.py` lines 302-372): `if not response: return None`, then
the `try` block returning `None` on `JSONDecodeError`/`KeyError`; any other
exception propagates.  The `Option Resp` argument is the value produced by
`get_requests_response` (`none` models Python `None`). -/
def get_comment_detail_data (comment_id : String) (response : Option Resp) :
    Except PyExc (Option CommentRecord) :=
  match response with
  | none => Except.ok none
  | some r =>
    if respTruthy r = false then Except.ok none
    else
      match parseDetailBody comment_id r with
      | Except.ok record => Except.ok (some record)
      | Except.error e =>
        if caughtByExceptClause e then Except.ok none else Except.error e

/-- `get_comment_detail_data` of the non-checkpointed variant
(`regulations_fda_scraping.py` lines 274-339): identical except that there is
no `if not response` guard, so when the executor returned `None` the call
`response.json()` raises an uncaught `AttributeError`. -/
def get_comment_detail_data_nc (comment_id : String) (response : Option Resp) :
    Except PyExc (Option CommentRecord) :=
  match response with
  | none => Except.error PyExc.attributeError
  | some r =>
    match parseDetailBody comment_id r with
    | Except.ok record => Except.ok (some record)
    | Except.error e =>
      if caughtByExceptClause e then Except.ok none else Except.error e

/-- The raw `comment_attributes.get(k, "")` read when `comment_attributes`
is the dict `m`. -/
def attrRaw (m : List (String × Json)) (k : String) : Json :=
  (m.lookup k).getD (Json.jstr "")

/-- A textual field read: `comment_attributes.get(k, "") or ""`. -/
def attrText (m : List (String × Json)) (k : String) : Json :=
  pyOrEmpty (attrRaw m k)

/-- The record `get_comment_detail_data` builds when `comment_attributes` is
the dict `m` (every `.get` succeeds on a dict, so the `try` block runs to the
end). -/
def normalizedRecord (comment_id : String) (m : List (String × Json)) : CommentRecord :=
  { comment_id := Json.jstr comment_id
    tracking_number := attrText m "trackingNbr"
    country := attrText m "country"
    state_or_province := attrText m "stateProvinceRegion"
    zip_code := attrText m "zip"
    document_category := attrText m "category"
    document_subtype := attrText m "subtype"
    received_date := Json.jstr (pyPartitionBefore 'T' (pyStr (attrRaw m "receiveDate")))
    url := Json.jstr (API_COMMENTS_URL ++ "/" ++ comment_id)
    title := attrText m "title"
    object_id := attrText m "objectId"
    agency_id := attrText m "agencyId"
    docket_id := attrText m "docketId"
    open_for_comment := attrRaw m "openForComment"
    comment_on_document_id := attrText m "commentOnDocumentId"
    withdrawn := attrRaw m "withdrawn"
    restrict_reason := attrText m "restrictReason"
    restrict_reason_type := attrText m "restrictReasonType"
    comment := attrText m "comment" }

/-- On an attribute dict, the field extraction runs to completion and builds
exactly `normalizedRecord`. -/
theorem normalizeAttributes_jobj (comment_id : String) (m : List (String × Json)) :
    normalizeAttributes comment_id (Json.jobj m) =
      Except.ok (normalizedRecord comment_id m) := rfl

/-- On any non-dict value, the first `.get` raises `AttributeError`. -/
theorem normalizeAttributes_not_jobj (comment_id : String) (a : Json)
    (h : ∀ m, a ≠ Json.jobj m) :
    normalizeAttributes comment_id a = Except.error PyExc.attributeError := by
  cases a with
  | jobj m => exact absurd rfl (h m)
  | jnull => rfl
  | jbool b => rfl
  | jnum n => rfl
  | jstr s => rfl
  | jarr l => rfl

theorem normalizeAttributes_ok (comment_id : String) (a : Json) (record : CommentRecord)
    (h : normalizeAttributes comment_id a = Except.ok record) :
    ∃ m, a = Json.jobj m ∧ record = normalizedRecord comment_id m := by
  cases a with
  | jobj m =>
    rw [normalizeAttributes_jobj] at h
    exact ⟨m, rfl, (Except.ok.injEq _ _ ▸ h.symm : _)⟩
  | jnull => exact absurd h (by simp [normalizeAttributes_not_jobj comment_id Json.jnull (by intro m hm; cases hm)])
  | jbool b => exact absurd h (by simp [normalizeAttributes_not_jobj comment_id (Json.jbool b) (by intro m hm; cases hm)])
  | jnum n => exact absurd h (by simp [normalizeAttributes_not_jobj comment_id (Json.jnum n) (by intro m hm; cases hm)])
  | jstr s => exact absurd h (by simp [normalizeAttributes_not_jobj comment_id (Json.jstr s) (by intro m hm; cases hm)])
  | jarr l => exact absurd h (by simp [normalizeAttributes_not_jobj comment_id (Json.jarr l) (by intro m hm; cases hm)])

/-- A response whose body is undecodable makes the `try` block fail with
`JSONDecodeError` at `response.json()`. -/
theorem parseDetailBody_undecodable (comment_id : String) (sc : Nat) :
    parseDetailBody comment_id (Resp.mk sc none) = Except.error PyExc.jsonDecodeError := rfl

/-- A successfully parsed detail body always yields the record built from
some attribute dict — never anything partial. -/
theorem parseDetailBody_ok (comment_id : String) (r : Resp) (record : CommentRecord)
    (h : parseDetailBody comment_id r = Except.ok record) :
    ∃ m, record = normalizedRecord comment_id m := by
  unfold parseDetailBody at h
  split at h
  · exact absurd h (by simp)
  · split at h
    · exact absurd h (by simp)
    · split at h
      · exact absurd h (by simp)
      · obtain ⟨m, _, hm⟩ := normalizeAttributes_ok comment_id _ record h
        exact ⟨m, hm⟩

theorem attrText_absent (m : List (String × Json)) (k : String)
    (h : m.lookup k = none) : attrText m k = Json.jstr "" := by
  unfold attrText attrRaw
  rw [h]
  rfl

theorem attrText_null (m : List (String × Json)) (k : String)
    (h : m.lookup k = some Json.jnull) : attrText m k = Json.jstr "" := by
  unfold attrText attrRaw
  rw [h]
  rfl

theorem attrRaw_absent (m : List (String × Json)) (k : String)
    (h : m.lookup k = none) : attrRaw m k = Json.jstr "" := by
  unfold attrRaw
  rw [h]
  rfl

theorem attrRaw_null (m : List (String × Json)) (k : String)
    (h : m.lookup k = some Json.jnull) : attrRaw m k = Json.jnull := by
  unfold attrRaw
  rw [h]
  rfl

/-- C7 counterexample: the claim says a malformed/undecodable response body
makes the detail fetch return `None`, and that an absent executor response
does too.  At the concrete malformed body `{"data": "oops"}` the
checkpointed `get_comment_detail_data` instead raises an uncaught
`TypeError` (the `except` clause catches only `JSONDecodeError` and
`KeyError`), and at an absent response the non-checkpointed variant raises
an uncaught `AttributeError` (`None.json()`), so neither call returns
`None`. -/
theorem claim_C7_counterexample :
    (get_comment_detail_data "X"
        (some (Resp.mk 200 (some (Json.jobj [("data", Json.jstr "oops")])))) =
      Except.error PyExc.typeError ∧
      (Except.error PyExc.typeError : Except PyExc (Option CommentRecord)) ≠
        Except.ok none) ∧
    (get_comment_detail_data_nc "X" none = Except.error PyExc.attributeError ∧
      (Except.error PyExc.attributeError : Except PyExc (Option CommentRecord)) ≠
        Except.ok none) :=
  ⟨⟨rfl, fun h => Except.noConfusion h⟩, ⟨rfl, fun h => Except.noConfusion h⟩⟩

/-- C7 (amended): the checkpointed detail fetch returns `None` when the
executor yielded no response or a falsy (status ≥ 400) one, when the body is
undecodable, and when a required key is missing (`KeyError`); when the body
parses it returns the full normalized record of some attribute dict (with
the identifier and detail URL filled in), never a partial record; but an
uncaught exception (e.g. `TypeError` on a type-mismatched body) propagates
instead of returning `None`, and the non-checkpointed variant propagates an
uncaught `AttributeError` when the executor yielded no response. -/
theorem claim_C7 :
    (∀ (id : String), get_comment_detail_data id none = Except.ok none) ∧
    (∀ (id : String) (r : Resp), respTruthy r = false →
      get_comment_detail_data id (some r) = Except.ok none) ∧
    (∀ (id : String) (sc : Nat),
      parseDetailBody id (Resp.mk sc none) = Except.error PyExc.jsonDecodeError) ∧
    (∀ (id : String) (r : Resp) (e : PyExc), respTruthy r = true →
      parseDetailBody id r = Except.error e → caughtByExceptClause e = true →
      get_comment_detail_data id (some r) = Except.ok none) ∧
    (∀ (id : String) (r : Resp) (record : CommentRecord), respTruthy r = true →
      parseDetailBody id r = Except.ok record →
      get_comment_detail_data id (some r) = Except.ok (some record) ∧
      ∃ m, record = normalizedRecord id m ∧
        record.comment_id = Json.jstr id ∧
        record.url = Json.jstr (API_COMMENTS_URL ++ "/" ++ id)) ∧
    (∀ (id : String) (r : Resp) (e : PyExc), respTruthy r = true →
      parseDetailBody id r = Except.error e → caughtByExceptClause e = false →
      get_comment_detail_data id (some r) = Except.error e) ∧
    (∀ (id : String), get_comment_detail_data_nc id none = Except.error PyExc.attributeError) ∧
    (∀ (id : String) (r : Resp) (e : PyExc),
      parseDetailBody id r = Except.error e → caughtByExceptClause e = true →
      get_comment_detail_data_nc id (some r) = Except.ok none) := by
  refine ⟨fun id => rfl, ?_, fun id sc => rfl, ?_, ?_, ?_, fun id => rfl, ?_⟩
  · intro id r h
    simp [get_comment_detail_data, h]
  · intro id r e ht hp hc
    simp [get_comment_detail_data, ht, hp, hc]
  · intro id r record ht hp
    refine ⟨by simp [get_comment_detail_data, ht, hp], ?_⟩
    obtain ⟨m, hm⟩ := parseDetailBody_ok id r record hp
    subst hm
    exact ⟨m, rfl, rfl, rfl⟩
  · intro id r e ht hp hc
    simp [get_comment_detail_data, ht, hp, hc]
  · intro id r e hp hc
    simp [get_comment_detail_data_nc, hp, hc]

/-- Witness for C7: a truthy response with an undecodable body yields `None`,
and a well-formed body yields the full record. -/
theorem claim_C7_witness :
    get_comment_detail_data "X" (some (Resp.mk 200 none)) = Except.ok none ∧
    get_comment_detail_data "X" (some (Resp.mk 200
        (some (Json.jobj [("data", Json.jobj [("attributes", Json.jobj [])])])))) =
      Except.ok (some (normalizedRecord "X" [])) :=
  ⟨claim_C7.2.2.2.1 "X" (Resp.mk 200 none) PyExc.jsonDecodeError rfl rfl rfl,
   (claim_C7.2.2.2.2.1 "X" (Resp.mk 200
      (some (Json.jobj [("data", Json.jobj [("attributes", Json.jobj [])])])))
      (normalizedRecord "X" []) rfl rfl).1⟩

/-- C10 counterexample: the claim says every optional field that is null
upstream is mapped to the empty string; but for the attribute dict
`{"openForComment": null}` the produced record's `open_for_comment`
field is null (the source stores `comment_attributes.get("openForComment", "")`
without the `or ""` coalescing), not the empty string. -/
theorem claim_C10_counterexample :
    get_comment_detail_data "X" (some (Resp.mk 200
        (some (Json.jobj [("data", Json.jobj [("attributes",
          Json.jobj [("openForComment", Json.jnull)])])])))) =
      Except.ok (some (normalizedRecord "X" [("openForComment", Json.jnull)])) ∧
    (normalizedRecord "X" [("openForComment", Json.jnull)]).open_for_comment = Json.jnull ∧
    Json.jnull ≠ Json.jstr "" :=
  ⟨rfl, rfl, fun h => Json.noConfusion h⟩

/-- C10 (amended): every produced record contains all 19 fields; the
fourteen textual optional fields map an absent or null upstream attribute to
the empty string; `open_for_comment` and `withdrawn` map an absent attribute
to the empty string but keep a present null; `received_date` maps an absent
attribute to the empty string but a null one to the string `"None"`
(Python `str(None)`). -/
theorem claim_C10 (id : String) (m : List (String × Json)) :
    get_comment_detail_data id (some (Resp.mk 200
        (some (Json.jobj [("data", Json.jobj [("attributes", Json.jobj m)])])))) =
      Except.ok (some (normalizedRecord id m)) ∧
    (normalizedRecord id m).comment_id = Json.jstr id ∧
    (normalizedRecord id m).url = Json.jstr (API_COMMENTS_URL ++ "/" ++ id) ∧
    (m.lookup "trackingNbr" = none ∨ m.lookup "trackingNbr" = some Json.jnull →
      (normalizedRecord id m).tracking_number = Json.jstr "") ∧
    (m.lookup "country" = none ∨ m.lookup "country" = some Json.jnull →
      (normalizedRecord id m).country = Json.jstr "") ∧
    (m.lookup "stateProvinceRegion" = none ∨ m.lookup "stateProvinceRegion" = some Json.jnull →
      (normalizedRecord id m).state_or_province = Json.jstr "") ∧
    (m.lookup "zip" = none ∨ m.lookup "zip" = some Json.jnull →
      (normalizedRecord id m).zip_code = Json.jstr "") ∧
    (m.lookup "category" = none ∨ m.lookup "category" = some Json.jnull →
      (normalizedRecord id m).document_category = Json.jstr "") ∧
    (m.lookup "subtype" = none ∨ m.lookup "subtype" = some Json.jnull →
      (normalizedRecord id m).document_subtype = Json.jstr "") ∧
    (m.lookup "title" = none ∨ m.lookup "title" = some Json.jnull →
      (normalizedRecord id m).title = Json.jstr "") ∧
    (m.lookup "objectId" = none ∨ m.lookup "objectId" = some Json.jnull →
      (normalizedRecord id m).object_id = Json.jstr "") ∧
    (m.lookup "agencyId" = none ∨ m.lookup "agencyId" = some Json.jnull →
      (normalizedRecord id m).agency_id = Json.jstr "") ∧
    (m.lookup "docketId" = none ∨ m.lookup "docketId" = some Json.jnull →
      (normalizedRecord id m).docket_id = Json.jstr "") ∧
    (m.lookup "commentOnDocumentId" = none ∨ m.lookup "commentOnDocumentId" = some Json.jnull →
      (normalizedRecord id m).comment_on_document_id = Json.jstr "") ∧
    (m.lookup "restrictReason" = none ∨ m.lookup "restrictReason" = some Json.jnull →
      (normalizedRecord id m).restrict_reason = Json.jstr "") ∧
    (m.lookup "restrictReasonType" = none ∨ m.lookup "restrictReasonType" = some Json.jnull →
      (normalizedRecord id m).restrict_reason_type = Json.jstr "") ∧
    (m.lookup "comment" = none ∨ m.lookup "comment" = some Json.jnull →
      (normalizedRecord id m).comment = Json.jstr "") ∧
    (m.lookup "openForComment" = none →
      (normalizedRecord id m).open_for_comment = Json.jstr "") ∧
    (m.lookup "openForComment" = some Json.jnull →
      (normalizedRecord id m).open_for_comment = Json.jnull) ∧
    (m.lookup "withdrawn" = none → (normalizedRecord id m).withdrawn = Json.jstr "") ∧
    (m.lookup "withdrawn" = some Json.jnull → (normalizedRecord id m).withdrawn = Json.jnull) ∧
    (m.lookup "receiveDate" = none → (normalizedRecord id m).received_date = Json.jstr "") ∧
    (m.lookup "receiveDate" = some Json.jnull →
      (normalizedRecord id m).received_date = Json.jstr "None") :=
  ⟨rfl, rfl, rfl,
   fun h => h.elim (attrText_absent m "trackingNbr") (attrText_null m "trackingNbr"),
   fun h => h.elim (attrText_absent m "country") (attrText_null m "country"),
   fun h => h.elim (attrText_absent m "stateProvinceRegion") (attrText_null m "stateProvinceRegion"),
   fun h => h.elim (attrText_absent m "zip") (attrText_null m "zip"),
   fun h => h.elim (attrText_absent m "category") (attrText_null m "category"),
   fun h => h.elim (attrText_absent m "subtype") (attrText_null m "subtype"),
   fun h => h.elim (attrText_absent m "title") (attrText_null m "title"),
   fun h => h.elim (attrText_absent m "objectId") (attrText_null m "objectId"),
   fun h => h.elim (attrText_absent m "agencyId") (attrText_null m "agencyId"),
   fun h => h.elim (attrText_absent m "docketId") (attrText_null m "docketId"),
   fun h => h.elim (attrText_absent m "commentOnDocumentId") (attrText_null m "commentOnDocumentId"),
   fun h => h.elim (attrText_absent m "restrictReason") (attrText_null m "restrictReason"),
   fun h => h.elim (attrText_absent m "restrictReasonType") (attrText_null m "restrictReasonType"),
   fun h => h.elim (attrText_absent m "comment") (attrText_null m "comment"),
   fun h => attrRaw_absent m "openForComment" h,
   fun h => attrRaw_null m "openForComment" h,
   fun h => attrRaw_absent m "withdrawn" h,
   fun h => attrRaw_null m "withdrawn" h,
   fun h => by
     show Json.jstr (pyPartitionBefore 'T' (pyStr (attrRaw m "receiveDate"))) = Json.jstr ""
     rw [attrRaw_absent m "receiveDate" h]
     rfl,
   fun h => by
     show Json.jstr (pyPartitionBefore 'T' (pyStr (attrRaw m "receiveDate"))) = Json.jstr "None"
     rw [attrRaw_null m "receiveDate" h]
     rfl⟩

/-- Witness for C10: at the empty attribute dict the record is produced and
its optional fields are empty strings. -/
theorem claim_C10_witness :
    get_comment_detail_data "X" (some (Resp.mk 200
        (some (Json.jobj [("data", Json.jobj [("attributes", Json.jobj [])])])))) =
      Except.ok (some (normalizedRecord "X" [])) ∧
    (normalizedRecord "X" []).tracking_number = Json.jstr "" :=
  ⟨(claim_C10 "X" []).1, (claim_C10 "X" []).2.2.2.1 (Or.inl rfl)⟩

/-! ## Checkpoint store (`load_processed_ids` / `save_processed_ids`,
checkpointed variant only)

The persisted checkpoint file is modelled by its character contents
(a Lean `String` is a wrapper around exactly such a `List Char`).
`save_processed_ids` opens the file in `"w"` mode — which truncates it — and
then executes one `f.write` per identifier of the in-memory set, so during
the call the file passes through the truncated state and through every
prefix of the final contents.  `load_processed_ids` reads the file back as
`set(line.strip() for line in f)`; the in-memory set is modelled as a
duplicate-free list in iteration order. -/

/-- The character contents written by `save_processed_ids` for in-memory
identifier sequence `p`: one identifier per line. -/
def saveContentChars (p : List String) : List Char :=
  (p.map (fun comment_id => comment_id.data ++ ['\n'])).flatten

/-- Python file line iteration with the trailing newline removed from each
line: splits at newline terminators and yields no empty trailing line. -/
def splitLines (l : List Char) : List (List Char) :=
  l.foldr
    (fun c acc =>
      if c = '\n' then [] :: acc
      else
        match acc with
        | [] => [[c]]
        | a :: as => (c :: a) :: as)
    []

/-- Python `line.strip()` on the characters of a line. -/
def pyStrip (l : List Char) : List Char :=
  ((l.dropWhile Char.isWhitespace).reverse.dropWhile Char.isWhitespace).reverse

/-- `load_processed_ids`: the identifiers read back from the persisted file
contents (`set(line.strip() for line in f)`, in iteration order). -/
def load_processed_ids (content : List Char) : List String :=
  (splitLines content).map (fun l => String.mk (pyStrip l))

/-- The checkpoint store's state: the in-memory `processed_comment_ids` set
(as a duplicate-free list in iteration order) and the persisted file
contents. -/
structure CheckpointStore where
  mem : List String
  disk : List Char

/-- `save_processed_ids` (lines 226-230 of `extract-comments.py`): rewrite
the persisted file to exactly the in-memory contents. -/
def save_processed_ids (st : CheckpointStore) : CheckpointStore :=
  { st with disk := saveContentChars st.mem }

/-- The sequence of observable file contents during one `save_processed_ids`
call: `open(..., "w")` truncates the file, then one `f.write` per
identifier appends one line. -/
def flushIntermediateContents (p : List String) : List (List Char) :=
  (List.range (p.length + 1)).map (fun k => saveContentChars (p.take k))

/-- The atomicity property asserted by the claim: at every instant during
the rewrite, the file holds either the old contents or the new contents. -/
def flushAtomic (oldContent : List Char) (p : List String) : Prop :=
  ∀ s ∈ flushIntermediateContents p, s = oldContent ∨ s = saveContentChars p

instance (oldContent : List Char) (p : List String) :
    Decidable (flushAtomic oldContent p) := by
  unfold flushAtomic
  infer_instance

theorem splitLines_cons (c : Char) (l : List Char) :
    splitLines (c :: l) =
      if c = '\n' then [] :: splitLines l
      else
        match splitLines l with
        | [] => [[c]]
        | a :: as => (c :: a) :: as := rfl

/-- Splitting off one full line. -/
theorem splitLines_append_newline (a rest : List Char) (h : '\n' ∉ a) :
    splitLines (a ++ '\n' :: rest) = a :: splitLines rest := by
  induction a with
  | nil => rfl
  | cons c a ih =>
    have hc : c ≠ '\n' := fun hc => h (hc ▸ List.mem_cons_self c a)
    have h' : '\n' ∉ a := fun hm => h (List.mem_cons_of_mem c hm)
    simp only [List.cons_append, splitLines_cons, ih h', if_neg hc]

/-- The persisted contents split back into exactly one line per
identifier. -/
theorem splitLines_saveContentChars (p : List String)
    (h : ∀ comment_id ∈ p, '\n' ∉ comment_id.data) :
    splitLines (saveContentChars p) = p.map String.data := by
  induction p with
  | nil => rfl
  | cons x p ih =>
    have hx : '\n' ∉ x.data := h x (List.mem_cons_self x p)
    have h' : ∀ comment_id ∈ p, '\n' ∉ comment_id.data :=
      fun i hi => h i (List.mem_cons_of_mem x hi)
    have hs : saveContentChars (x :: p) = x.data ++ '\n' :: saveContentChars p := by
      simp [saveContentChars]
    rw [hs, splitLines_append_newline x.data _ hx, ih h', List.map_cons]

/-- C6 counterexample: the claim asserts the rewrite is atomic with respect
to process interruption, but flushing the set containing A and B over a file
previously holding only A passes through the truncated (empty) state, which
is neither the old nor the new contents. -/
theorem claim_C6_counterexample :
    ¬ flushAtomic (saveContentChars ["A"]) ["A", "B"] := by decide

/-- C6 (amended): after every `save_processed_ids` call the persisted file
contains exactly the current in-memory identifier set, one identifier per
line in iteration order, and flushing is idempotent — flushing again with an
unchanged in-memory set leaves the persisted contents unchanged; but the
rewrite is not atomic: an interruption mid-flush can leave the file in an
intermediate state (the truncated file or any proper prefix of the new
contents). -/
theorem claim_C6 :
    (∀ p : List String,
      (∀ comment_id ∈ p, '\n' ∉ comment_id.data ∧
        pyStrip comment_id.data = comment_id.data) →
      load_processed_ids (saveContentChars p) = p) ∧
    (∀ st : CheckpointStore,
      save_processed_ids (save_processed_ids st) = save_processed_ids st) := by
  constructor
  · intro p h
    rw [load_processed_ids,
      splitLines_saveContentChars p (fun i hi => (h i hi).1)]
    induction p with
    | nil => rfl
    | cons x p ih =>
      have hx := (h x (List.mem_cons_self x p)).2
      have h' : ∀ comment_id ∈ p, '\n' ∉ comment_id.data ∧
          pyStrip comment_id.data = comment_id.data :=
        fun i hi => h i (List.mem_cons_of_mem x hi)
      simp only [List.map_cons, List.map_map, Function.comp, hx, ih h']
  · intro st
    rfl

/-- Witness for C6: the round trip instantiated at a concrete two-identifier
set. -/
theorem claim_C6_witness :
    load_processed_ids (saveContentChars ["FDA-1", "FDA-2"]) = ["FDA-1", "FDA-2"] :=
  claim_C6.1 ["FDA-1", "FDA-2"] (by decide)

/-! ## Identifier discovery (`get_comment_ids`, both variants)

The pagination loop requests page 1, 2, ... of the listing endpoint until a
page's `meta.hasNextPage` is falsy.  The simulated executor results for the
successive page requests are supplied as a list consumed in order; each
iteration of the `while True` loop consumes one element.  The identifier
accumulator models the checkpointed variant's `comment_ids` list with its
companion lookup set (which always hold the same identifiers, in insertion
order), and equally the non-checkpointed variant's `comment_ids` set in
insertion order. -/

/-- Result of a discovery run: a normal `return`, an uncaught exception
propagating out of `get_comment_ids`, or exhaustion of the simulated page
responses while the loop wanted another page. -/
inductive DiscOut (α : Type) where
  | ret : α → DiscOut α
  | crash : PyExc → DiscOut α
  | outOfPages : DiscOut α

/-- The `try` block of the pagination loop: `response.json()`, then
`response_content["data"]`, then `response_content["meta"]["hasNextPage"]`. -/
def parsePage (r : Resp) : Except PyExc (Json × Json) :=
  match respJson r with
  | Except.error e => Except.error e
  | Except.ok response_content =>
    match getItem response_content "data" with
    | Except.error e => Except.error e
    | Except.ok response_data =>
      match getItem response_content "meta" with
      | Except.error e => Except.error e
      | Except.ok meta =>
        match getItem meta "hasNextPage" with
        | Except.error e => Except.error e
        | Except.ok has_next_page => Except.ok (response_data, has_next_page)

/-- The `for comment in response_data` loop body over a list of comments:
`comment["id"]`, then append unless already present (the duplicate is logged
and skipped).  Any exception raised here is uncaught — the loop sits outside
the `try` block in both scripts. -/
def collectIdsList : List Json → List Json → Except PyExc (List Json)
  | [], acc => Except.ok acc
  | comment :: comments, acc =>
    match getItem comment "id" with
    | Except.error e => Except.error e
    | Except.ok comment_id =>
      collectIdsList comments
        (if acc.contains comment_id then acc else acc ++ [comment_id])

/-- `for comment in response_data` on an arbitrary decoded value: iterating
a list visits its elements; iterating an empty dict or empty string visits
nothing; iterating a non-empty dict or string visits strings, whose
subscripting with `"id"` raises `TypeError` at once; any other value is not
iterable and raises `TypeError` itself. -/
def collectIds (response_data : Json) (acc : List Json) : Except PyExc (List Json) :=
  match response_data with
  | Json.jarr comments => collectIdsList comments acc
  | Json.jobj [] => Except.ok acc
  | Json.jstr "" => Except.ok acc
  | _ => Except.error PyExc.typeError

/-- The pagination loop of the checkpointed `get_comment_ids`
(`extract-comments.py` lines 255-295): a missing or falsy response breaks
out of the loop returning the identifiers accumulated so far, a caught parse
exception does the same, an uncaught exception propagates, and a truthy
`hasNextPage` continues with the next page. -/
def discoverLoop (pages : List (Option Resp)) (acc : List Json) : DiscOut (List Json) :=
  match pages with
  | [] => DiscOut.outOfPages
  | response :: rest =>
    match response with
    | none => DiscOut.ret acc
    | some r =>
      if respTruthy r = false then DiscOut.ret acc
      else
        match parsePage r with
        | Except.error e =>
          if caughtByExceptClause e then DiscOut.ret acc else DiscOut.crash e
        | Except.ok (response_data, has_next_page) =>
          match collectIds response_data acc with
          | Except.error e => DiscOut.crash e
          | Except.ok acc2 =>
            if pyTruthy has_next_page then discoverLoop rest acc2 else DiscOut.ret acc2

/-- Checkpointed `get_comment_ids` (`extract-comments.py` lines 233-299):
an out-of-range `page_size` is rejected with an empty result and no request
is attempted. -/
def get_comment_ids (page_size : Nat) (pages : List (Option Resp)) : DiscOut (List Json) :=
  if ¬(5 ≤ page_size ∧ page_size ≤ 250) then DiscOut.ret []
  else discoverLoop pages []

/-- The pagination loop of the non-checkpointed `get_comment_ids`
(`regulations_fda_scraping.py` lines 233-267): there is no `if not response`
guard, so a missing response raises an uncaught `AttributeError` at
`response.json()`; a caught parse exception makes the whole function
`return None` instead of returning the accumulated identifiers. -/
def discoverLoopNC (pages : List (Option Resp)) (acc : List Json) :
    DiscOut (Option (List Json)) :=
  match pages with
  | [] => DiscOut.outOfPages
  | response :: rest =>
    match response with
    | none => DiscOut.crash PyExc.attributeError
    | some r =>
      match parsePage r with
      | Except.error e =>
        if caughtByExceptClause e then DiscOut.ret none else DiscOut.crash e
      | Except.ok (response_data, has_next_page) =>
        match collectIds response_data acc with
        | Except.error e => DiscOut.crash e
        | Except.ok acc2 =>
          if pyTruthy has_next_page then discoverLoopNC rest acc2
          else DiscOut.ret (some acc2)

/-- Non-checkpointed `get_comment_ids` (`regulations_fda_scraping.py`
lines 212-271): an out-of-range `page_size` returns `None`. -/
def get_comment_ids_nc (page_size : Nat) (pages : List (Option Resp)) :
    DiscOut (Option (List Json)) :=
  if ¬(5 ≤ page_size ∧ page_size ≤ 250) then DiscOut.ret none
  else discoverLoopNC pages []

/-- A well-formed listing page carrying the given identifiers and a truthy
`hasNextPage`. -/
def goodPageBody (ids : List String) : Json :=
  Json.jobj [("data", Json.jarr (ids.map (fun i => Json.jobj [("id", Json.jstr i)]))),
             ("meta", Json.jobj [("hasNextPage", Json.jbool true)])]

/-- The simulated executor result for a well-formed listing page. -/
def goodPage (ids : List String) : Option Resp :=
  some (Resp.mk 200 (some (goodPageBody ids)))

/-- Appending one page's identifiers to the accumulator with the loop's
duplicate skipping. -/
def dedupAppend (acc : List Json) (ids : List String) : List Json :=
  ids.foldl
    (fun acc i => if acc.contains (Json.jstr i) then acc else acc ++ [Json.jstr i])
    acc

theorem collectIdsList_mkIds (ids : List String) (acc : List Json) :
    collectIdsList (ids.map (fun i => Json.jobj [("id", Json.jstr i)])) acc =
      Except.ok (dedupAppend acc ids) := by
  induction ids generalizing acc with
  | nil => rfl
  | cons i ids ih =>
    simp only [List.map_cons, collectIdsList, getItem, List.lookup]
    exact ih _

theorem discoverLoop_goodPage (ids : List String) (rest : List (Option Resp))
    (acc : List Json) :
    discoverLoop (goodPage ids :: rest) acc = discoverLoop rest (dedupAppend acc ids) := by
  have hstep : discoverLoop (goodPage ids :: rest) acc =
      (match collectIds (Json.jarr (ids.map (fun i => Json.jobj [("id", Json.jstr i)]))) acc with
       | Except.error e => DiscOut.crash e
       | Except.ok acc2 => discoverLoop rest acc2) := rfl
  rw [hstep, collectIds, collectIdsList_mkIds]

theorem discoverLoopNC_goodPage (ids : List String) (rest : List (Option Resp))
    (acc : List Json) :
    discoverLoopNC (goodPage ids :: rest) acc =
      discoverLoopNC rest (dedupAppend acc ids) := by
  have hstep : discoverLoopNC (goodPage ids :: rest) acc =
      (match collectIds (Json.jarr (ids.map (fun i => Json.jobj [("id", Json.jstr i)]))) acc with
       | Except.error e => DiscOut.crash e
       | Except.ok acc2 => discoverLoopNC rest acc2) := rfl
  rw [hstep, collectIds, collectIdsList_mkIds]

/-- C8: after any number of well-formed pages, a malformed page response — a
present, truthy response whose parse fails with one of the caught exceptions
(`JSONDecodeError` for an undecodable body, `KeyError` for missing expected
keys) — makes the checkpointed variant stop paginating and return the
identifiers accumulated from the preceding pages, while the non-checkpointed
variant returns `None`: no identifiers at all. -/
theorem claim_C8 (idss : List (List String)) (r : Resp) (e : PyExc)
    (h1 : respTruthy r = true)
    (h2 : parsePage r = Except.error e)
    (h3 : caughtByExceptClause e = true) :
    get_comment_ids 250 ((idss.map goodPage) ++ [some r]) =
      DiscOut.ret (idss.foldl dedupAppend []) ∧
    get_comment_ids_nc 250 ((idss.map goodPage) ++ [some r]) = DiscOut.ret none := by
  have hck : ∀ (idss : List (List String)) (acc : List Json),
      discoverLoop ((idss.map goodPage) ++ [some r]) acc =
        DiscOut.ret (idss.foldl dedupAppend acc) := by
    intro idss
    induction idss with
    | nil =>
      intro acc
      simp only [List.map_nil, List.nil_append, List.foldl_nil, discoverLoop, h1, h2, h3]
      rfl
    | cons ids idss ih =>
      intro acc
      simp only [List.map_cons, List.cons_append, discoverLoop_goodPage, ih, List.foldl_cons]
  have hnc : ∀ (idss : List (List String)) (acc : List Json),
      discoverLoopNC ((idss.map goodPage) ++ [some r]) acc = DiscOut.ret none := by
    intro idss
    induction idss with
    | nil =>
      intro acc
      simp only [List.map_nil, List.nil_append, discoverLoopNC, h2, h3]
      rfl
    | cons ids idss ih =>
      intro acc
      simp only [List.map_cons, List.cons_append, discoverLoopNC_goodPage, ih]
  exact ⟨hck idss [], hnc idss []⟩

/-- Witness for C8: two well-formed pages (with an identifier repeated
across pages) followed by an undecodable page. -/
theorem claim_C8_witness :
    get_comment_ids 250
        ([["a", "b"], ["b", "c"]].map goodPage ++ [some (Resp.mk 200 none)]) =
      DiscOut.ret ([["a", "b"], ["b", "c"]].foldl dedupAppend []) ∧
    get_comment_ids_nc 250
        ([["a", "b"], ["b", "c"]].map goodPage ++ [some (Resp.mk 200 none)]) =
      DiscOut.ret none :=
  claim_C8 [["a", "b"], ["b", "c"]] (Resp.mk 200 none) PyExc.jsonDecodeError rfl rfl rfl

/-! ## Run orchestrator (`main` of the checkpointed variant,
`extract-comments.py` lines 409-494)

The orchestrator is modelled with its two collaborators as oracles: the
discovery output (`comment_ids`) is an input list, and each
`get_comment_detail_data(comment_id)` call is an oracle from identifiers to
outcomes.  An oracle outcome can also be an exception raised during the
iteration (`KeyboardInterrupt` from the operator, or any other exception),
observed at the detail-fetch call — the loop's dominant suspension point.
CSV files are modelled by the lists of records written to them. -/

/-- Outcome of one loop iteration's `get_comment_detail_data` call as the
orchestrator observes it. -/
inductive FetchOutcome where
  | ok : CommentRecord → FetchOutcome
  | failed : FetchOutcome
  | interrupt : FetchOutcome
  | error : FetchOutcome

/-- How the `try` block of `main` ended: normal loop completion, the
`except KeyboardInterrupt` arm, or the `except Exception` arm. -/
inductive ExitKind where
  | normal : ExitKind
  | interrupted : ExitKind
  | errored : ExitKind
deriving Repr, DecidableEq

/-- The orchestrator's mutable state: the closed CSV files (in creation
order), the records of the currently open CSV file, the `file_counter` and
`current_file_comment_count` globals, the in-memory `processed_comment_ids`
set (as a duplicate-free list in insertion order), the identifiers persisted
by the most recent `save_processed_ids` call, the log of identifiers for
which a detail fetch was attempted, and the final summary report (current
file's record count, total processed) printed by the shutdown path. -/
structure RunState where
  files : List (List CommentRecord)
  current : List CommentRecord
  currentOpen : Bool
  fileCounter : Nat
  currentCount : Nat
  processed : List String
  saved : List String
  fetchLog : List String
  summary : Option (Nat × Nat)

/-- `processed_comment_ids.add(comment_id)` on the insertion-ordered list
model of the set. -/
def insertNew (l : List String) (x : String) : List String :=
  if x ∈ l then l else l ++ [x]

/-- `COMMENTS_PER_FILE` of the checkpointed script. -/
def COMMENTS_PER_FILE : Nat := 500

/-- The rotation block (lines 454-464): close the current file, increment
`file_counter`, reset `current_file_comment_count`, open a new file. -/
def rotateFile (s : RunState) : RunState :=
  { s with files := s.files ++ [s.current], current := [],
           fileCounter := s.fileCounter + 1, currentCount := 0 }

/-- The success block (lines 469-478): `writer.writerow`, `f.flush()`,
increment the per-file counter, add the identifier to the in-memory set,
and flush the checkpoint when the set size is a multiple of 50. -/
def writeRecord (s : RunState) (comment_id : String) (record : CommentRecord) : RunState :=
  let s1 := { s with current := s.current ++ [record],
                     currentCount := s.currentCount + 1,
                     processed := insertNew s.processed comment_id }
  if s1.processed.length % 50 == 0 then { s1 with saved := s1.processed } else s1

/-- The state just before the detail fetch of one iteration: rotation when
the open file has reached the threshold, and the fetch attempt logged. -/
def prepState (threshold : Nat) (s : RunState) (comment_id : String) : RunState :=
  let s1 := if threshold ≤ s.currentCount then rotateFile s else s
  { s1 with fetchLog := s1.fetchLog ++ [comment_id] }

/-- The `for comment_id in comments_to_process` loop (lines 444-478) with
`COMMENTS_PER_FILE` generalized to `threshold`: skip identifiers already
processed, rotate when due, fetch, and on success write and checkpoint.  An
`interrupt`/`error` outcome aborts the loop with the corresponding exit
kind (caught by `main`'s `except` arms). -/
def fetchLoop (threshold : Nat) (fetch : String → FetchOutcome) :
    List String → RunState → RunState × ExitKind
  | [], s => (s, ExitKind.normal)
  | comment_id :: rest, s =>
    if comment_id ∈ s.processed then
      fetchLoop threshold fetch rest s
    else
      match fetch comment_id with
      | FetchOutcome.interrupt => (prepState threshold s comment_id, ExitKind.interrupted)
      | FetchOutcome.error => (prepState threshold s comment_id, ExitKind.errored)
      | FetchOutcome.failed =>
        fetchLoop threshold fetch rest (prepState threshold s comment_id)
      | FetchOutcome.ok record =>
        fetchLoop threshold fetch rest
          (writeRecord (prepState threshold s comment_id) comment_id record)

/-- The `finally` block (lines 484-494): close the open file, save the
processed identifiers, and report the summary. -/
def drainRun (s : RunState) : RunState :=
  { s with files := s.files ++ [s.current], current := [], currentOpen := false,
           saved := s.processed,
           summary := some (s.currentCount, s.processed.length) }

/-- The orchestrator's overall result: `return None` on empty discovery,
the "nothing to do" early return, or a drained run with its exit kind. -/
inductive MainResult where
  | noIds : MainResult
  | nothingToDo : MainResult
  | ran : RunState → ExitKind → MainResult

/-- The state when the first CSV file has just been created (line 441):
`cp` is the loaded checkpoint set, `fc` the starting file counter. -/
def initialState (cp : List String) (fc : Nat) : RunState :=
  { files := [], current := [], currentOpen := true, fileCounter := fc,
    currentCount := 0, processed := cp, saved := cp,
    fetchLog := [], summary := none }

/-- `main` of the checkpointed variant from the point where the discovery
result is in hand: `if not comment_ids: return None`; compute
`comments_to_process`; `if not comments_to_process:` report nothing to do
and return; otherwise open the first file, run the fetching loop inside
`try`, and in every case run the `finally` block. -/
def mainRun (threshold fc : Nat) (cp comment_ids : List String)
    (fetch : String → FetchOutcome) : MainResult :=
  if comment_ids.isEmpty then MainResult.noIds
  else
    let comments_to_process := comment_ids.filter (fun cid => decide (cid ∉ cp))
    if comments_to_process.isEmpty then MainResult.nothingToDo
    else
      let out := fetchLoop threshold fetch comments_to_process (initialState cp fc)
      MainResult.ran (drainRun out.1) out.2

/-- All records written during the run: the closed files' contents followed
by the open file's. -/
def allRecords (s : RunState) : List CommentRecord :=
  s.files.flatten ++ s.current

/-- The identifiers of the records written during the run (every record a
successful `get_comment_detail_data` returns carries `comment_id` as a
string). -/
def writtenIds (s : RunState) : List String :=
  (allRecords s).filterMap (fun record =>
    match record.comment_id with
    | Json.jstr i => some i
    | _ => none)

/-! ### Small-step facts about the loop's state transformers -/

theorem insertNew_mem (l : List String) (x y : String) :
    y ∈ insertNew l x ↔ y ∈ l ∨ y = x := by
  unfold insertNew
  by_cases h : x ∈ l
  · simp only [if_pos h]
    constructor
    · exact fun hy => Or.inl hy
    · rintro (hy | rfl)
      · exact hy
      · exact h
  · simp [if_neg h]

theorem insertNew_length (l : List String) (x : String) (h : x ∉ l) :
    (insertNew l x).length = l.length + 1 := by
  simp [insertNew, if_neg h]

theorem allRecords_rotateFile (s : RunState) :
    allRecords (rotateFile s) = allRecords s := by
  simp [allRecords, rotateFile]

theorem allRecords_prepState (threshold : Nat) (s : RunState) (comment_id : String) :
    allRecords (prepState threshold s comment_id) = allRecords s := by
  unfold prepState
  by_cases h : threshold ≤ s.currentCount
  · simp only [if_pos h]
    exact allRecords_rotateFile s
  · simp [if_neg h, allRecords]

theorem processed_rotateFile (s : RunState) :
    (rotateFile s).processed = s.processed := rfl

theorem processed_prepState (threshold : Nat) (s : RunState) (comment_id : String) :
    (prepState threshold s comment_id).processed = s.processed := by
  unfold prepState
  by_cases h : threshold ≤ s.currentCount
  · simp [if_pos h, rotateFile]
  · simp [if_neg h]

theorem fetchLog_prepState (threshold : Nat) (s : RunState) (comment_id : String) :
    (prepState threshold s comment_id).fetchLog = s.fetchLog ++ [comment_id] := by
  unfold prepState
  by_cases h : threshold ≤ s.currentCount
  · simp [if_pos h, rotateFile]
  · simp [if_neg h]

theorem processed_writeRecord (s : RunState) (comment_id : String) (record : CommentRecord) :
    (writeRecord s comment_id record).processed = insertNew s.processed comment_id := by
  simp only [writeRecord]
  split <;> rfl

theorem fetchLog_writeRecord (s : RunState) (comment_id : String) (record : CommentRecord) :
    (writeRecord s comment_id record).fetchLog = s.fetchLog := by
  simp only [writeRecord]
  split <;> rfl

theorem allRecords_writeRecord (s : RunState) (comment_id : String) (record : CommentRecord) :
    allRecords (writeRecord s comment_id record) = allRecords s ++ [record] := by
  simp only [writeRecord]
  split <;> simp [allRecords]

theorem writtenIds_writeRecord (s : RunState) (comment_id : String) (record : CommentRecord)
    (h : record.comment_id = Json.jstr comment_id) :
    writtenIds (writeRecord s comment_id record) = writtenIds s ++ [comment_id] := by
  unfold writtenIds
  rw [allRecords_writeRecord, List.filterMap_append]
  simp [h]

theorem writtenIds_prepState (threshold : Nat) (s : RunState) (comment_id : String) :
    writtenIds (prepState threshold s comment_id) = writtenIds s := by
  unfold writtenIds
  rw [allRecords_prepState]

theorem processed_drainRun (s : RunState) : (drainRun s).processed = s.processed := rfl

theorem writtenIds_drainRun (s : RunState) : writtenIds (drainRun s) = writtenIds s := by
  unfold writtenIds
  simp [allRecords, drainRun]

/-! ### Step equations for the fetching loop -/

theorem fetchLoop_nil (threshold : Nat) (fetch : String → FetchOutcome) (s : RunState) :
    fetchLoop threshold fetch [] s = (s, ExitKind.normal) := rfl

theorem fetchLoop_cons_skip (threshold : Nat) (fetch : String → FetchOutcome)
    (comment_id : String) (rest : List String) (s : RunState)
    (h : comment_id ∈ s.processed) :
    fetchLoop threshold fetch (comment_id :: rest) s = fetchLoop threshold fetch rest s := by
  simp [fetchLoop, h]

theorem fetchLoop_cons_ok (threshold : Nat) (fetch : String → FetchOutcome)
    (comment_id : String) (rest : List String) (s : RunState) (record : CommentRecord)
    (h : comment_id ∉ s.processed) (hf : fetch comment_id = FetchOutcome.ok record) :
    fetchLoop threshold fetch (comment_id :: rest) s =
      fetchLoop threshold fetch rest
        (writeRecord (prepState threshold s comment_id) comment_id record) := by
  simp [fetchLoop, h, hf]

theorem fetchLoop_cons_failed (threshold : Nat) (fetch : String → FetchOutcome)
    (comment_id : String) (rest : List String) (s : RunState)
    (h : comment_id ∉ s.processed) (hf : fetch comment_id = FetchOutcome.failed) :
    fetchLoop threshold fetch (comment_id :: rest) s =
      fetchLoop threshold fetch rest (prepState threshold s comment_id) := by
  simp [fetchLoop, h, hf]

theorem fetchLoop_cons_interrupt (threshold : Nat) (fetch : String → FetchOutcome)
    (comment_id : String) (rest : List String) (s : RunState)
    (h : comment_id ∉ s.processed) (hf : fetch comment_id = FetchOutcome.interrupt) :
    fetchLoop threshold fetch (comment_id :: rest) s =
      (prepState threshold s comment_id, ExitKind.interrupted) := by
  simp [fetchLoop, h, hf]

theorem fetchLoop_cons_error (threshold : Nat) (fetch : String → FetchOutcome)
    (comment_id : String) (rest : List String) (s : RunState)
    (h : comment_id ∉ s.processed) (hf : fetch comment_id = FetchOutcome.error) :
    fetchLoop threshold fetch (comment_id :: rest) s =
      (prepState threshold s comment_id, ExitKind.errored) := by
  simp [fetchLoop, h, hf]

/-- Unfolding `mainRun` when it reached the fetching phase. -/
theorem mainRun_ran (threshold fc : Nat) (cp comment_ids : List String)
    (fetch : String → FetchOutcome) (fin : RunState) (exit : ExitKind)
    (h : mainRun threshold fc cp comment_ids fetch = MainResult.ran fin exit) :
    comment_ids ≠ [] ∧
    comment_ids.filter (fun cid => decide (cid ∉ cp)) ≠ [] ∧
    fin = drainRun (fetchLoop threshold fetch
      (comment_ids.filter (fun cid => decide (cid ∉ cp))) (initialState cp fc)).1 ∧
    exit = (fetchLoop threshold fetch
      (comment_ids.filter (fun cid => decide (cid ∉ cp))) (initialState cp fc)).2 := by
  unfold mainRun at h
  by_cases h1 : comment_ids.isEmpty
  · rw [if_pos h1] at h
    exact absurd h (by simp)
  · rw [if_neg h1] at h
    by_cases h2 : (comment_ids.filter (fun cid => decide (cid ∉ cp))).isEmpty
    · rw [if_pos h2] at h
      exact absurd h (by simp)
    · rw [if_neg h2] at h
      injection h with hfin hexit
      exact ⟨by simpa using h1, by simpa using h2, hfin.symm, hexit.symm⟩

/-! ### Loop invariants -/

/-- Invariants of the fetching loop for an arbitrary fetch oracle whose
successful results carry the fetched identifier: the in-memory set is the
baseline checkpoint plus exactly the identifiers written this run, every
written identifier came from a successful fetch, and no written identifier
was in the baseline checkpoint. -/
theorem fetchLoop_invariants (threshold : Nat) (fetch : String → FetchOutcome)
    (cp : List String)
    (Hf : ∀ id record, fetch id = FetchOutcome.ok record →
      record.comment_id = Json.jstr id) :
    ∀ (rem : List String) (s : RunState),
      (∀ x, x ∈ s.processed ↔ x ∈ cp ∨ x ∈ writtenIds s) →
      (∀ x, x ∈ writtenIds s → ∃ record, fetch x = FetchOutcome.ok record) →
      (∀ x, x ∈ writtenIds s → x ∉ cp) →
      ((∀ x, x ∈ (fetchLoop threshold fetch rem s).1.processed ↔
          x ∈ cp ∨ x ∈ writtenIds (fetchLoop threshold fetch rem s).1) ∧
       (∀ x, x ∈ writtenIds (fetchLoop threshold fetch rem s).1 →
          ∃ record, fetch x = FetchOutcome.ok record) ∧
       (∀ x, x ∈ writtenIds (fetchLoop threshold fetch rem s).1 → x ∉ cp)) := by
  intro rem
  induction rem with
  | nil =>
    intro s h1 h2 h3
    rw [fetchLoop_nil]
    exact ⟨h1, h2, h3⟩
  | cons comment_id rest ih =>
    intro s h1 h2 h3
    by_cases hp : comment_id ∈ s.processed
    · rw [fetchLoop_cons_skip threshold fetch comment_id rest s hp]
      exact ih s h1 h2 h3
    · cases hf : fetch comment_id with
      | interrupt =>
        rw [fetchLoop_cons_interrupt threshold fetch comment_id rest s hp hf]
        refine ⟨?_, ?_, ?_⟩
        · intro x
          rw [processed_prepState, writtenIds_prepState]
          exact h1 x
        · intro x hx
          rw [writtenIds_prepState] at hx
          exact h2 x hx
        · intro x hx
          rw [writtenIds_prepState] at hx
          exact h3 x hx
      | error =>
        rw [fetchLoop_cons_error threshold fetch comment_id rest s hp hf]
        refine ⟨?_, ?_, ?_⟩
        · intro x
          rw [processed_prepState, writtenIds_prepState]
          exact h1 x
        · intro x hx
          rw [writtenIds_prepState] at hx
          exact h2 x hx
        · intro x hx
          rw [writtenIds_prepState] at hx
          exact h3 x hx
      | failed =>
        rw [fetchLoop_cons_failed threshold fetch comment_id rest s hp hf]
        apply ih
        · intro x
          rw [processed_prepState, writtenIds_prepState]
          exact h1 x
        · intro x hx
          rw [writtenIds_prepState] at hx
          exact h2 x hx
        · intro x hx
          rw [writtenIds_prepState] at hx
          exact h3 x hx
      | ok record =>
        rw [fetchLoop_cons_ok threshold fetch comment_id rest s record hp hf]
        have hid : comment_id ∉ cp := fun hc => hp ((h1 comment_id).2 (Or.inl hc))
        have hw : writtenIds (writeRecord (prepState threshold s comment_id)
            comment_id record) = writtenIds s ++ [comment_id] := by
          rw [writtenIds_writeRecord _ _ _ (Hf comment_id record hf), writtenIds_prepState]
        apply ih
        · intro x
          rw [processed_writeRecord, processed_prepState, insertNew_mem, hw,
            List.mem_append, List.mem_singleton, h1 x]
          tauto
        · intro x hx
          rw [hw, List.mem_append, List.mem_singleton] at hx
          rcases hx with hx | rfl
          · exact h2 x hx
          · exact ⟨record, hf⟩
        · intro x hx
          rw [hw, List.mem_append, List.mem_singleton] at hx
          rcases hx with hx | rfl
          · exact h3 x hx
          · exact hid

/-- When every remaining identifier is new and fetches successfully, the
loop completes normally, attempts exactly the remaining identifiers in
order, and extends the in-memory set by exactly them. -/
theorem fetchLoop_allSuccess (threshold : Nat) (fetch : String → FetchOutcome) :
    ∀ (rem : List String) (s : RunState),
      rem.Nodup →
      (∀ id ∈ rem, id ∉ s.processed) →
      (∀ id ∈ rem, ∃ record, fetch id = FetchOutcome.ok record) →
      (fetchLoop threshold fetch rem s).2 = ExitKind.normal ∧
      (fetchLoop threshold fetch rem s).1.fetchLog = s.fetchLog ++ rem ∧
      (∀ x, x ∈ (fetchLoop threshold fetch rem s).1.processed ↔
        x ∈ s.processed ∨ x ∈ rem) := by
  intro rem
  induction rem with
  | nil =>
    intro s _ _ _
    rw [fetchLoop_nil]
    simp
  | cons comment_id rest ih =>
    intro s hnd hnew hall
    have hp : comment_id ∉ s.processed := hnew comment_id (List.mem_cons_self _ _)
    obtain ⟨record, hf⟩ := hall comment_id (List.mem_cons_self _ _)
    rw [fetchLoop_cons_ok threshold fetch comment_id rest s record hp hf]
    have hproc : (writeRecord (prepState threshold s comment_id)
        comment_id record).processed = insertNew s.processed comment_id := by
      rw [processed_writeRecord, processed_prepState]
    have hlog : (writeRecord (prepState threshold s comment_id)
        comment_id record).fetchLog = s.fetchLog ++ [comment_id] := by
      rw [fetchLog_writeRecord, fetchLog_prepState]
    have hnd' : rest.Nodup := (List.nodup_cons.mp hnd).2
    have hhead : comment_id ∉ rest := (List.nodup_cons.mp hnd).1
    have hnew' : ∀ id ∈ rest, id ∉ (writeRecord (prepState threshold s comment_id)
        comment_id record).processed := by
      intro id hid
      rw [hproc, insertNew_mem]
      rintro (hmem | rfl)
      · exact hnew id (List.mem_cons_of_mem _ hid) hmem
      · exact hhead hid
    have hall' : ∀ id ∈ rest, ∃ record, fetch id = FetchOutcome.ok record :=
      fun id hid => hall id (List.mem_cons_of_mem _ hid)
    obtain ⟨hexit, hlog2, hmem⟩ := ih _ hnd' hnew' hall'
    refine ⟨hexit, ?_, ?_⟩
    · rw [hlog2, hlog, List.append_assoc]
      rfl
    · intro x
      rw [hmem x, hproc, insertNew_mem, List.mem_cons]
      tauto

theorem prepState_rot (threshold : Nat) (s : RunState) (comment_id : String)
    (h : threshold ≤ s.currentCount) :
    prepState threshold s comment_id =
      { s with files := s.files ++ [s.current], current := [],
               fileCounter := s.fileCounter + 1, currentCount := 0,
               fetchLog := s.fetchLog ++ [comment_id] } := by
  simp [prepState, if_pos h, rotateFile]

theorem prepState_norot (threshold : Nat) (s : RunState) (comment_id : String)
    (h : ¬ threshold ≤ s.currentCount) :
    prepState threshold s comment_id =
      { s with fetchLog := s.fetchLog ++ [comment_id] } := by
  simp [prepState, if_neg h]

theorem current_writeRecord (s : RunState) (comment_id : String) (record : CommentRecord) :
    (writeRecord s comment_id record).current = s.current ++ [record] := by
  simp only [writeRecord]
  split <;> rfl

theorem currentCount_writeRecord (s : RunState) (comment_id : String) (record : CommentRecord) :
    (writeRecord s comment_id record).currentCount = s.currentCount + 1 := by
  simp only [writeRecord]
  split <;> rfl

theorem files_writeRecord (s : RunState) (comment_id : String) (record : CommentRecord) :
    (writeRecord s comment_id record).files = s.files := by
  simp only [writeRecord]
  split <;> rfl

/-- Rotation bookkeeping of the fetching loop when every remaining
identifier is new and fetches successfully: the open file's record count
tracks its contents and never exceeds the threshold, every closed file holds
exactly `threshold` records, the written total adds up, and after at least
one iteration the open file is nonempty. -/
theorem fetchLoop_rotationCount (threshold : Nat) (fetch : String → FetchOutcome)
    (hthr : 1 ≤ threshold) :
    ∀ (rem : List String) (s : RunState),
      rem.Nodup →
      (∀ id ∈ rem, id ∉ s.processed) →
      (∀ id ∈ rem, ∃ record, fetch id = FetchOutcome.ok record) →
      s.currentCount = s.current.length →
      s.currentCount ≤ threshold →
      (∀ f ∈ s.files, f.length = threshold) →
      ((fetchLoop threshold fetch rem s).1.currentCount =
          (fetchLoop threshold fetch rem s).1.current.length ∧
        (fetchLoop threshold fetch rem s).1.currentCount ≤ threshold ∧
        (∀ f ∈ (fetchLoop threshold fetch rem s).1.files, f.length = threshold) ∧
        (fetchLoop threshold fetch rem s).1.files.length * threshold +
            (fetchLoop threshold fetch rem s).1.currentCount =
          s.files.length * threshold + s.currentCount + rem.length ∧
        (rem ≠ [] → 1 ≤ (fetchLoop threshold fetch rem s).1.currentCount)) := by
  intro rem
  induction rem with
  | nil =>
    intro s _ _ _ hlen hle hfiles
    rw [fetchLoop_nil]
    exact ⟨hlen, hle, hfiles, by simp, fun h => absurd rfl h⟩
  | cons comment_id rest ih =>
    intro s hnd hnew hall hlen hle hfiles
    have hp : comment_id ∉ s.processed := hnew comment_id (List.mem_cons_self _ _)
    obtain ⟨record, hf⟩ := hall comment_id (List.mem_cons_self _ _)
    rw [fetchLoop_cons_ok threshold fetch comment_id rest s record hp hf]
    have hnd' : rest.Nodup := (List.nodup_cons.mp hnd).2
    have hhead : comment_id ∉ rest := (List.nodup_cons.mp hnd).1
    have hproc : (writeRecord (prepState threshold s comment_id)
        comment_id record).processed = insertNew s.processed comment_id := by
      rw [processed_writeRecord, processed_prepState]
    have hnew' : ∀ id ∈ rest, id ∉ (writeRecord (prepState threshold s comment_id)
        comment_id record).processed := by
      intro id hid
      rw [hproc, insertNew_mem]
      rintro (hmem | rfl)
      · exact hnew id (List.mem_cons_of_mem _ hid) hmem
      · exact hhead hid
    have hall' : ∀ id ∈ rest, ∃ record, fetch id = FetchOutcome.ok record :=
      fun id hid => hall id (List.mem_cons_of_mem _ hid)
    by_cases hrot : threshold ≤ s.currentCount
    · have hceq : s.currentCount = threshold := Nat.le_antisymm hle hrot
      have hcur : (writeRecord (prepState threshold s comment_id)
          comment_id record).current = [record] := by
        rw [current_writeRecord, prepState_rot threshold s comment_id hrot]
        rfl
      have hcnt : (writeRecord (prepState threshold s comment_id)
          comment_id record).currentCount = 1 := by
        rw [currentCount_writeRecord, prepState_rot threshold s comment_id hrot]
      have hfls : (writeRecord (prepState threshold s comment_id)
          comment_id record).files = s.files ++ [s.current] := by
        rw [files_writeRecord, prepState_rot threshold s comment_id hrot]
      have hfiles' : ∀ f ∈ (writeRecord (prepState threshold s comment_id)
          comment_id record).files, f.length = threshold := by
        rw [hfls]
        intro f hfm
        rcases List.mem_append.mp hfm with hfm | hfm
        · exact hfiles f hfm
        · rw [List.mem_singleton.mp hfm]
          omega
      obtain ⟨c1, c2, c3, c4, c5⟩ := ih _ hnd' hnew' hall'
        (by rw [hcur, hcnt]; rfl) (by rw [hcnt]; exact hthr) hfiles'
      rw [hfls, hcnt] at c4
      have hflen : (s.files ++ [s.current]).length = s.files.length + 1 := by simp
      rw [hflen] at c4
      have hexp : (s.files.length + 1) * threshold =
          s.files.length * threshold + threshold := by ring
      rw [hexp] at c4
      refine ⟨c1, c2, c3, ?_, ?_⟩
      · simp only [List.length_cons]
        omega
      · intro _
        by_cases hrest : rest = []
        · subst hrest
          simp only [fetchLoop_nil]
          rw [hcnt]
        · exact c5 hrest
    · have hcur : (writeRecord (prepState threshold s comment_id)
          comment_id record).current = s.current ++ [record] := by
        rw [current_writeRecord, prepState_norot threshold s comment_id hrot]
      have hcnt : (writeRecord (prepState threshold s comment_id)
          comment_id record).currentCount = s.currentCount + 1 := by
        rw [currentCount_writeRecord, prepState_norot threshold s comment_id hrot]
      have hfls : (writeRecord (prepState threshold s comment_id)
          comment_id record).files = s.files := by
        rw [files_writeRecord, prepState_norot threshold s comment_id hrot]
      obtain ⟨c1, c2, c3, c4, c5⟩ := ih _ hnd' hnew' hall'
        (by rw [hcur, hcnt, List.length_append, hlen]; rfl)
        (by rw [hcnt]; omega) (by rw [hfls]; exact hfiles)
      rw [hfls, hcnt] at c4
      refine ⟨c1, c2, c3, ?_, ?_⟩
      · simp only [List.length_cons]
        omega
      · intro _
        by_cases hrest : rest = []
        · subst hrest
          simp only [fetchLoop_nil]
          rw [hcnt]
          omega
        · exact c5 hrest

theorem fetchLog_drainRun (s : RunState) : (drainRun s).fetchLog = s.fetchLog := rfl

theorem saved_drainRun (s : RunState) : (drainRun s).saved = s.processed := rfl

theorem mem_filter_not_cp (cp comment_ids : List String) :
    ∀ id ∈ comment_ids.filter (fun cid => decide (cid ∉ cp)), id ∉ cp := by
  intro id hid
  simpa using (List.mem_filter.mp hid).2

/-- `mainRun` reduced on the path that reaches the fetching loop. -/
theorem mainRun_eq_ran (threshold fc : Nat) (cp comment_ids : List String)
    (fetch : String → FetchOutcome)
    (h1 : comment_ids ≠ [])
    (h2 : comment_ids.filter (fun cid => decide (cid ∉ cp)) ≠ []) :
    mainRun threshold fc cp comment_ids fetch =
      MainResult.ran (drainRun (fetchLoop threshold fetch
        (comment_ids.filter (fun cid => decide (cid ∉ cp))) (initialState cp fc)).1)
        (fetchLoop threshold fetch (comment_ids.filter (fun cid => decide (cid ∉ cp)))
          (initialState cp fc)).2 := by
  unfold mainRun
  have hne1 : comment_ids.isEmpty = false := by
    cases comment_ids with
    | nil => exact absurd rfl h1
    | cons a l => rfl
  have hne2 : (comment_ids.filter (fun cid => decide (cid ∉ cp))).isEmpty = false := by
    cases hft : comment_ids.filter (fun cid => decide (cid ∉ cp)) with
    | nil => exact absurd hft h2
    | cons a l => rfl
  simp only [hne1, hne2, Bool.false_eq_true, if_false]

/-- C2: the orchestrator computes `toProcess = discovered − checkpointed`;
when discovery is nonempty but the difference is empty it reports "nothing
to do" and terminates; and a run in which every identifier of the
difference fetches successfully completes normally, attempts exactly the
identifiers of the difference in order, and persists a checkpoint holding
exactly the union of the loaded checkpoint and the discovered
identifiers. -/
theorem claim_C2 (threshold fc : Nat) (cp comment_ids : List String)
    (fetch : String → FetchOutcome) :
    (comment_ids ≠ [] →
      comment_ids.filter (fun cid => decide (cid ∉ cp)) = [] →
      mainRun threshold fc cp comment_ids fetch = MainResult.nothingToDo) ∧
    (comment_ids.Nodup →
      comment_ids.filter (fun cid => decide (cid ∉ cp)) ≠ [] →
      (∀ id ∈ comment_ids.filter (fun cid => decide (cid ∉ cp)),
        ∃ record, fetch id = FetchOutcome.ok record) →
      ∃ fin, mainRun threshold fc cp comment_ids fetch =
          MainResult.ran fin ExitKind.normal ∧
        fin.fetchLog = comment_ids.filter (fun cid => decide (cid ∉ cp)) ∧
        (∀ x, x ∈ fin.saved ↔ x ∈ cp ∨ x ∈ comment_ids)) := by
  constructor
  · intro h1 h2
    unfold mainRun
    have hne1 : comment_ids.isEmpty = false := by
      cases comment_ids with
      | nil => exact absurd rfl h1
      | cons a l => rfl
    simp only [hne1, h2, Bool.false_eq_true, if_false, List.isEmpty_nil, if_true]
  · intro hnodup hne hall
    have h1 : comment_ids ≠ [] := by
      intro h
      subst h
      exact hne rfl
    have hnew : ∀ id ∈ comment_ids.filter (fun cid => decide (cid ∉ cp)),
        id ∉ (initialState cp fc).processed := mem_filter_not_cp cp comment_ids
    obtain ⟨hexit, hlog, hmem⟩ := fetchLoop_allSuccess threshold fetch
      (comment_ids.filter (fun cid => decide (cid ∉ cp))) (initialState cp fc)
      (hnodup.filter _) hnew hall
    refine ⟨drainRun (fetchLoop threshold fetch
        (comment_ids.filter (fun cid => decide (cid ∉ cp))) (initialState cp fc)).1,
      ?_, ?_, ?_⟩
    · rw [mainRun_eq_ran threshold fc cp comment_ids fetch h1 hne, hexit]
    · rw [fetchLog_drainRun, hlog]
      rfl
    · intro x
      rw [saved_drainRun, hmem x]
      show x ∈ cp ∨ _ ↔ _
      constructor
      · rintro (hx | hx)
        · exact Or.inl hx
        · exact Or.inr (List.mem_of_mem_filter hx)
      · rintro (hx | hx)
        · exact Or.inl hx
        · by_cases hcp : x ∈ cp
          · exact Or.inl hcp
          · exact Or.inr (List.mem_filter.mpr ⟨hx, by simpa using hcp⟩)

/-- Witness for C2: checkpoint containing A and B, discovery returning A, B,
C, D; only C and D are attempted and the final checkpoint holds exactly A,
B, C, D. -/
theorem claim_C2_witness :
    ∃ fin, mainRun 500 1 ["A", "B"] ["A", "B", "C", "D"]
        (fun cid => FetchOutcome.ok (normalizedRecord cid [])) =
        MainResult.ran fin ExitKind.normal ∧
      fin.fetchLog = ["A", "B", "C", "D"].filter (fun cid => decide (cid ∉ ["A", "B"])) ∧
      (∀ x, x ∈ fin.saved ↔ x ∈ ["A", "B"] ∨ x ∈ ["A", "B", "C", "D"]) :=
  (claim_C2 500 1 ["A", "B"] ["A", "B", "C", "D"]
    (fun cid => FetchOutcome.ok (normalizedRecord cid []))).2
    (by decide) (by decide) (fun id _ => ⟨normalizedRecord id [], rfl⟩)

/-- C4: during a run of the checkpointed fetching loop (any oracle, any
exit), an identifier joined the in-memory checkpoint set in this run exactly
when its record was written to an output sink in this run; every written
identifier came from a successful detail fetch; and an identifier whose
detail fetch yields nothing is absent from both the output and the
checkpoint after the run. -/
theorem claim_C4 (threshold fc : Nat) (cp comment_ids : List String)
    (fetch : String → FetchOutcome)
    (Hf : ∀ id record, fetch id = FetchOutcome.ok record →
      record.comment_id = Json.jstr id)
    (fin : RunState) (exit : ExitKind)
    (hrun : mainRun threshold fc cp comment_ids fetch = MainResult.ran fin exit) :
    (∀ x, (x ∈ fin.processed ∧ x ∉ cp) ↔ x ∈ writtenIds fin) ∧
    (∀ x, x ∈ writtenIds fin → ∃ record, fetch x = FetchOutcome.ok record) ∧
    (∀ x, fetch x = FetchOutcome.failed → x ∉ cp →
      x ∉ writtenIds fin ∧ x ∉ fin.processed) := by
  obtain ⟨h1, h2, hfin, hexit⟩ := mainRun_ran threshold fc cp comment_ids fetch fin exit hrun
  subst hfin
  have i1 : ∀ x, x ∈ (initialState cp fc).processed ↔
      x ∈ cp ∨ x ∈ writtenIds (initialState cp fc) := by
    intro x
    simp [initialState, writtenIds, allRecords]
  have i2 : ∀ x, x ∈ writtenIds (initialState cp fc) →
      ∃ record, fetch x = FetchOutcome.ok record := by
    intro x hx
    simp [initialState, writtenIds, allRecords] at hx
  have i3 : ∀ x, x ∈ writtenIds (initialState cp fc) → x ∉ cp := by
    intro x hx
    simp [initialState, writtenIds, allRecords] at hx
  obtain ⟨j1, j2, j3⟩ := fetchLoop_invariants threshold fetch cp Hf
    (comment_ids.filter (fun cid => decide (cid ∉ cp))) (initialState cp fc) i1 i2 i3
  refine ⟨?_, ?_, ?_⟩
  · intro x
    rw [processed_drainRun, writtenIds_drainRun]
    constructor
    · rintro ⟨hx, hcp⟩
      rcases (j1 x).1 hx with h | h
      · exact absurd h hcp
      · exact h
    · intro hx
      exact ⟨(j1 x).2 (Or.inr hx), j3 x hx⟩
  · intro x hx
    rw [writtenIds_drainRun] at hx
    exact j2 x hx
  · intro x hfail hcp
    constructor
    · intro hx
      rw [writtenIds_drainRun] at hx
      obtain ⟨record, hok⟩ := j2 x hx
      rw [hfail] at hok
      exact FetchOutcome.noConfusion hok
    · intro hx
      rw [processed_drainRun] at hx
      rcases (j1 x).1 hx with h | h
      · exact hcp h
      · obtain ⟨record, hok⟩ := j2 x h
        rw [hfail] at hok
        exact FetchOutcome.noConfusion hok

/-- Witness for C4: an identifier whose fetch fails is absent from both the
written output and the checkpoint. -/
theorem claim_C4_witness :
    "X" ∉ writtenIds
      { files := [[]]
        current := []
        currentOpen := false
        fileCounter := 1
        currentCount := 0
        processed := []
        saved := []
        fetchLog := ["X"]
        summary := some (0, 0) } ∧
    "X" ∉ RunState.processed
      { files := [[]]
        current := []
        currentOpen := false
        fileCounter := 1
        currentCount := 0
        processed := []
        saved := []
        fetchLog := ["X"]
        summary := some (0, 0) } :=
  (claim_C4 500 1 [] ["X"] (fun _ => FetchOutcome.failed)
    (fun _ _ h => FetchOutcome.noConfusion h)
    { files := [[]]
      current := []
      currentOpen := false
      fileCounter := 1
      currentCount := 0
      processed := []
      saved := []
      fetchLog := ["X"]
      summary := some (0, 0) }
    ExitKind.normal rfl).2.2 "X" rfl (List.not_mem_nil "X")

/-- C5: on every exit path from the fetching loop — normal completion,
operator interruption, or an unhandled exception — the run drains: the open
sink is closed (and its records kept), a final checkpoint flush persists the
in-memory set, and a summary is reported. -/
theorem claim_C5 (threshold fc : Nat) (cp comment_ids : List String)
    (fetch : String → FetchOutcome) (fin : RunState) (exit : ExitKind)
    (hrun : mainRun threshold fc cp comment_ids fetch = MainResult.ran fin exit) :
    fin.currentOpen = false ∧ fin.current = [] ∧ fin.saved = fin.processed ∧
    fin.summary = some (fin.currentCount, fin.processed.length) := by
  obtain ⟨_, _, hfin, _⟩ := mainRun_ran threshold fc cp comment_ids fetch fin exit hrun
  subst hfin
  exact ⟨rfl, rfl, rfl, rfl⟩

/-- Witness for C5: a run aborted by an operator interrupt still ends with
the sink closed, the checkpoint flushed, and the summary reported. -/
theorem claim_C5_witness :
    RunState.currentOpen
      { files := [[]]
        current := []
        currentOpen := false
        fileCounter := 1
        currentCount := 0
        processed := []
        saved := []
        fetchLog := ["X"]
        summary := some (0, 0) } = false ∧
    RunState.current
      { files := [[]]
        current := []
        currentOpen := false
        fileCounter := 1
        currentCount := 0
        processed := []
        saved := []
        fetchLog := ["X"]
        summary := some (0, 0) } = [] ∧
    RunState.saved
      { files := [[]]
        current := []
        currentOpen := false
        fileCounter := 1
        currentCount := 0
        processed := []
        saved := []
        fetchLog := ["X"]
        summary := some (0, 0) } =
      RunState.processed
      { files := [[]]
        current := []
        currentOpen := false
        fileCounter := 1
        currentCount := 0
        processed := []
        saved := []
        fetchLog := ["X"]
        summary := some (0, 0) } ∧
    RunState.summary
      { files := [[]]
        current := []
        currentOpen := false
        fileCounter := 1
        currentCount := 0
        processed := []
        saved := []
        fetchLog := ["X"]
        summary := some (0, 0) } =
      some (RunState.currentCount
        { files := [[]]
          current := []
          currentOpen := false
          fileCounter := 1
          currentCount := 0
          processed := []
          saved := []
          fetchLog := ["X"]
          summary := some (0, 0) },
        (RunState.processed
        { files := [[]]
          current := []
          currentOpen := false
          fileCounter := 1
          currentCount := 0
          processed := []
          saved := []
          fetchLog := ["X"]
          summary := some (0, 0) }).length) :=
  claim_C5 500 1 [] ["X"] (fun _ => FetchOutcome.interrupt)
    { files := [[]]
      current := []
      currentOpen := false
      fileCounter := 1
      currentCount := 0
      processed := []
      saved := []
      fetchLog := ["X"]
      summary := some (0, 0) }
    ExitKind.interrupted rfl

/-- C9: with rotation threshold `N ≥ 1` and `M` identifiers to process, all
fetching successfully and `M > N`, the run produces exactly `⌈M / N⌉` output
sinks, each holding at most `N` records, and all but possibly the last
holding exactly `N`. -/
theorem claim_C9 (threshold fc : Nat) (cp comment_ids : List String)
    (fetch : String → FetchOutcome) (M : Nat) (fin : RunState) (exit : ExitKind)
    (hthr : 1 ≤ threshold)
    (hnodup : comment_ids.Nodup)
    (hall : ∀ id ∈ comment_ids.filter (fun cid => decide (cid ∉ cp)),
      ∃ record, fetch id = FetchOutcome.ok record)
    (hM : M = (comment_ids.filter (fun cid => decide (cid ∉ cp))).length)
    (hMN : threshold < M)
    (hrun : mainRun threshold fc cp comment_ids fetch = MainResult.ran fin exit) :
    fin.files.length = (M + threshold - 1) / threshold ∧
    (∀ f ∈ fin.files, f.length ≤ threshold) ∧
    (∀ f ∈ fin.files.dropLast, f.length = threshold) := by
  obtain ⟨h1, h2, hfin, hexit⟩ := mainRun_ran threshold fc cp comment_ids fetch fin exit hrun
  subst hfin
  have hnew : ∀ id ∈ comment_ids.filter (fun cid => decide (cid ∉ cp)),
      id ∉ (initialState cp fc).processed := mem_filter_not_cp cp comment_ids
  obtain ⟨c1, c2, c3, c4, c5⟩ := fetchLoop_rotationCount threshold fetch hthr
    (comment_ids.filter (fun cid => decide (cid ∉ cp))) (initialState cp fc)
    (hnodup.filter _) hnew hall rfl (Nat.zero_le threshold)
    (by intro f hf; simp [initialState] at hf)
  have hMeq : (fetchLoop threshold fetch
        (comment_ids.filter (fun cid => decide (cid ∉ cp)))
        (initialState cp fc)).1.files.length * threshold +
      (fetchLoop threshold fetch
        (comment_ids.filter (fun cid => decide (cid ∉ cp)))
        (initialState cp fc)).1.currentCount = M := by
    rw [c4, hM]
    simp [initialState]
  have hC1 : 1 ≤ (fetchLoop threshold fetch
      (comment_ids.filter (fun cid => decide (cid ∉ cp)))
      (initialState cp fc)).1.currentCount := c5 h2
  refine ⟨?_, ?_, ?_⟩
  · show ((fetchLoop threshold fetch
        (comment_ids.filter (fun cid => decide (cid ∉ cp)))
        (initialState cp fc)).1.files ++ [_]).length = _
    rw [List.length_append, List.length_singleton]
    have hexp : threshold * ((fetchLoop threshold fetch
          (comment_ids.filter (fun cid => decide (cid ∉ cp)))
          (initialState cp fc)).1.files.length + 1) =
        (fetchLoop threshold fetch
          (comment_ids.filter (fun cid => decide (cid ∉ cp)))
          (initialState cp fc)).1.files.length * threshold + threshold := by
      ring
    have hsum : M + threshold - 1 =
        ((fetchLoop threshold fetch
          (comment_ids.filter (fun cid => decide (cid ∉ cp)))
          (initialState cp fc)).1.currentCount - 1) +
        threshold * ((fetchLoop threshold fetch
          (comment_ids.filter (fun cid => decide (cid ∉ cp)))
          (initialState cp fc)).1.files.length + 1) := by
      omega
    have hdiv : (M + threshold - 1) / threshold =
        (fetchLoop threshold fetch
          (comment_ids.filter (fun cid => decide (cid ∉ cp)))
          (initialState cp fc)).1.files.length + 1 := by
      rw [hsum, Nat.add_mul_div_left _ _ (show 0 < threshold by omega),
        Nat.div_eq_of_lt (show (fetchLoop threshold fetch
          (comment_ids.filter (fun cid => decide (cid ∉ cp)))
          (initialState cp fc)).1.currentCount - 1 < threshold by omega)]
      omega
    omega
  · intro f hf
    show f.length ≤ threshold
    rcases List.mem_append.mp hf with hf | hf
    · exact Nat.le_of_eq (c3 f hf)
    · rw [List.mem_singleton.mp hf]
      rw [← c1]
      exact c2
  · intro f hf
    rw [show (drainRun (fetchLoop threshold fetch
        (comment_ids.filter (fun cid => decide (cid ∉ cp)))
        (initialState cp fc)).1).files =
        (fetchLoop threshold fetch
          (comment_ids.filter (fun cid => decide (cid ∉ cp)))
          (initialState cp fc)).1.files ++
        [(fetchLoop threshold fetch
          (comment_ids.filter (fun cid => decide (cid ∉ cp)))
          (initialState cp fc)).1.current] from rfl,
      List.dropLast_concat] at hf
    exact c3 f hf

/-- Witness for C9: threshold 1 and two successfully fetched identifiers
produce exactly two sinks of one record each. -/
theorem claim_C9_witness :
    (RunState.files
      { files := [[normalizedRecord "a" []], [normalizedRecord "b" []]]
        current := []
        currentOpen := false
        fileCounter := 2
        currentCount := 1
        processed := ["a", "b"]
        saved := ["a", "b"]
        fetchLog := ["a", "b"]
        summary := some (1, 2) }).length = (2 + 1 - 1) / 1 ∧
    (∀ f ∈ RunState.files
      { files := [[normalizedRecord "a" []], [normalizedRecord "b" []]]
        current := []
        currentOpen := false
        fileCounter := 2
        currentCount := 1
        processed := ["a", "b"]
        saved := ["a", "b"]
        fetchLog := ["a", "b"]
        summary := some (1, 2) }, f.length ≤ 1) ∧
    (∀ f ∈ (RunState.files
      { files := [[normalizedRecord "a" []], [normalizedRecord "b" []]]
        current := []
        currentOpen := false
        fileCounter := 2
        currentCount := 1
        processed := ["a", "b"]
        saved := ["a", "b"]
        fetchLog := ["a", "b"]
        summary := some (1, 2) }).dropLast, f.length = 1) :=
  claim_C9 1 1 [] ["a", "b"] (fun cid => FetchOutcome.ok (normalizedRecord cid []))
    2
    { files := [[normalizedRecord "a" []], [normalizedRecord "b" []]]
      current := []
      currentOpen := false
      fileCounter := 2
      currentCount := 1
      processed := ["a", "b"]
      saved := ["a", "b"]
      fetchLog := ["a", "b"]
      summary := some (1, 2) }
    ExitKind.normal (by decide) (by decide)
    (fun id _ => ⟨normalizedRecord id [], rfl⟩) rfl (by decide) rfl

end RegComments
